import Mathlib

/-
Verification development for the valuation scenario calculator
(`valuation_app/services/calculator.py` and the model modules it uses).

Modelling conventions:
* Python floats are modelled as exact rationals (`ℚ`); the engine is not
  precision-critical and every arithmetic step of the source is a field
  operation, so the `ℚ` semantics is the ideal-real semantics of the code.
* Python ints are modelled as `ℤ`; the 0-based month loop counter is `ℕ`.
* The only non-rational operations of the source are the fractional powers
  `(1 + wacc) ** (i / 12)` in `_build_valuation` and
  `(1 + annual_rate) ** (1 / 12)` in `InflationIndex.monthly_factor`.
  The valuation layer is therefore parameterised by `root : ℚ` standing for
  the monthly discount base `(1 + wacc) ** (1 / 12)`, with
  `(1 + wacc) ** (i / 12) = root ^ i`; an `InflationIndex` carries its derived
  monthly factor as a value.
* The valuation layer models every raise point of the source with `Except`:
  the zero discount factors of a zero discount base (`cf / df` in
  `_build_valuation`), the perpetuity terminal value at
  `wacc == perpetual_growth_rate`, the VC-method denominators
  (`(1 + discount_rate_vc) ** target_exit_year` and
  `discounted_exit * probability_of_success`), the scorecard normalisation
  (all `ZeroDivisionError`), and the empty-projection access
  `monthly_results[-1]` (`IndexError`). Inside the monthly loop division
  follows Lean's `x / 0 = 0` convention: the loop's only raise points — a
  supplier contract with `escalation_frequency_months = 0` (Python `// 0`)
  and a seasonal pattern shorter than 12 entries (an index error) — are
  excluded by explicit hypotheses wherever a claim asserts completion.
* Python `dict` objects keyed by strings/enums are association lists with
  insertion-order update semantics (`updateA`), matching dict iteration order.
-/

namespace ValuationApp

set_option maxRecDepth 40000

/-- Python truthiness fallback `a or b` on numbers: `b` when `a == 0`, else `a`.
Used by `run` for the initial equity and by `_compute_multiples` for
`exit_year_multiple or terminal_multiple`. -/
def pyOr (a b : ℚ) : ℚ := if a = 0 then b else a

/-- Association-list lookup, first match wins (Python dict key access). -/
def lookupA {α β : Type} [DecidableEq α] (k : α) : List (α × β) → Option β
  | [] => none
  | (k', v) :: rest => if k' = k then some v else lookupA k rest

/-- Association-list update: overwrite in place if the key exists, else append
(Python dict assignment, preserving insertion order). -/
def updateA {α β : Type} [DecidableEq α] (k : α) (v : β) : List (α × β) → List (α × β)
  | [] => [(k, v)]
  | (k', v') :: rest => if k' = k then (k, v) :: rest else (k', v') :: updateA k v rest

/-- Calendar date as carried by the engine (`datetime.date`). -/
structure Date where
  year : ℤ
  month : ℤ
  day : ℤ
deriving DecidableEq

/-- `_last_day_of_month` from `dateutil/relativedelta.py`. -/
def lastDayOfMonth (year month : ℤ) : ℤ :=
  if month = 1 ∨ month = 3 ∨ month = 5 ∨ month = 7 ∨ month = 8 ∨ month = 10 ∨ month = 12 then 31
  else if month = 4 ∨ month = 6 ∨ month = 9 ∨ month = 11 then 30
  else if (year % 4 = 0 ∧ year % 100 ≠ 0) ∨ year % 400 = 0 then 29
  else 28

/-- `_add_months` from `dateutil/relativedelta.py` (Python `//` is floor
division and `%` is the nonnegative remainder, i.e. `Int.fdiv`/`Int.emod`). -/
def addMonths (dt : Date) (k : ℤ) : Date :=
  let month0 := dt.month - 1 + k
  let year := dt.year + month0.fdiv 12
  let month := month0.emod 12 + 1
  ⟨year, month, min dt.day (lastDayOfMonth year month)⟩

/-- `MonthlySchedule` (`models/common.py`): default plus sparse overrides. -/
structure MonthlySchedule where
  dflt : ℚ
  adjustments : List (ℕ × ℚ) := []
deriving DecidableEq

/-- `MonthlySchedule.value_for`. -/
def MonthlySchedule.value_for (s : MonthlySchedule) (month_index : ℕ) : ℚ :=
  (lookupA month_index s.adjustments).getD s.dflt

/-- `SeasonalPattern` (`models/common.py`): length-12 multipliers. The source
indexes `values[month_index % 12]`; out-of-range access (a malformed pattern)
would raise in Python and is totalised with `getD 0`. -/
structure SeasonalPattern where
  values : List ℚ
deriving DecidableEq

/-- `SeasonalPattern.factor`. -/
def SeasonalPattern.factor (p : SeasonalPattern) (month_index : ℕ) : ℚ :=
  p.values.getD (month_index % 12) 0

/-- `InflationIndex` (`models/common.py`). `monthly_factor` in the source is
`(1 + annual_rate) ** (1 / 12) - 1`, irrational in general; the derived value
is carried as the field `monthly_factor_val`. -/
structure InflationIndex where
  annual_rate : ℚ
  monthly_factor_val : ℚ
deriving DecidableEq

/-- `PriceAdjustment` (`models/common.py`). -/
structure PriceAdjustment where
  indexer : Option InflationIndex := none
  custom_monthly_rate : ℚ := 0
deriving DecidableEq

/-- `PriceAdjustment.factor_for_month`: custom rate plus the indexer's monthly
factor when present; constant in the month index. -/
def PriceAdjustment.factor_for_month (pa : PriceAdjustment) (_month_index : ℕ) : ℚ :=
  pa.custom_monthly_rate + (match pa.indexer with
    | some ix => ix.monthly_factor_val
    | none => 0)

/-- `TimeframeSettings` (`models/common.py`). The `months` annotation is
`conint(ge=1)`, but the vendored pydantic stub's `conint` returns plain `int`
and drops the constraint, so any integer is carried. -/
structure TimeframeSettings where
  start_date : Date
  months : ℤ
deriving DecidableEq

/-- `CompanyState` (`models/common.py`). -/
structure CompanyState where
  cash : ℚ
  accounts_receivable : ℚ := 0
  accounts_payable : ℚ := 0
  inventory : ℚ := 0
  fixed_assets : ℚ := 0
  accumulated_depreciation : ℚ := 0
  debt : ℚ := 0
  equity : ℚ := 0
deriving DecidableEq

/-- `CompanyState.net_fixed_assets`. -/
def CompanyState.net_fixed_assets (cs : CompanyState) : ℚ :=
  max 0 (cs.fixed_assets - cs.accumulated_depreciation)

/-- `RevenuePlan` (`models/revenue.py`); fields the calculator reads
(`recognition`, `transactional_rate` and `ramp_up` are carried by the schema
but never used by the monthly loop and are not needed here). -/
structure RevenuePlan where
  name : String
  initial_customers : ℚ
  initial_arpa : ℚ
  new_customers : MonthlySchedule
  churn_rate : MonthlySchedule
  expansion_rate : MonthlySchedule := ⟨0, []⟩
  contraction_rate : MonthlySchedule := ⟨0, []⟩
  discount_rate : MonthlySchedule := ⟨0, []⟩
  arpa_growth_rate : MonthlySchedule := ⟨0, []⟩
  seasonal_pattern : SeasonalPattern := ⟨List.replicate 12 1⟩
  revenue_deferral_months : ℤ := 0
  services_attach_rate : ℚ := 0
  services_asp : ℚ := 0
  transactional_volume : MonthlySchedule := ⟨0, []⟩
  transactional_fee : ℚ := 0
deriving DecidableEq

/-- `RevenueModel` (`models/revenue.py`). -/
structure RevenueModel where
  plans : List RevenuePlan
  other_recurring_revenue : MonthlySchedule := ⟨0, []⟩
  professional_services_revenue : MonthlySchedule := ⟨0, []⟩
deriving DecidableEq

/-- `RevenueSummary` (`models/revenue.py`). -/
structure RevenueSummary where
  total_gross : ℚ
  total_net : ℚ
  total_churn : ℚ
  total_expansion : ℚ
  arr : ℚ
deriving DecidableEq

/-- `SubscriptionCost` (`models/headcount.py`). -/
structure SubscriptionCost where
  monthly_cost : ℚ
  price_adjustment : PriceAdjustment := {}
deriving DecidableEq

/-- `HeadcountPosition` (`models/headcount.py`); `salary_adjustment` is carried
by the schema but never applied by the calculator. -/
structure HeadcountPosition where
  role : String
  area : String
  current_fte : ℚ
  base_salary : ℚ
  benefits_pct : ℚ := 0
  benefits_fixed : ℚ := 0
  bonus_pct : ℚ := 0
  payroll_taxes_pct : ℚ := 0
  subscriptions : List SubscriptionCost := []
deriving DecidableEq

/-- `HiringPlan` (`models/headcount.py`). -/
structure HiringPlan where
  role : String
  month_index : ℤ
  quantity : ℚ
  salary_override : Option ℚ := none
deriving DecidableEq

/-- `HeadcountModel` (`models/headcount.py`). -/
structure HeadcountModel where
  positions : List HeadcountPosition
  hires : List HiringPlan := []
  attrition_pct : MonthlySchedule := ⟨0, []⟩
deriving DecidableEq

/-- `HeadcountCostBreakdown` (`models/headcount.py`). -/
structure HeadcountCostBreakdown where
  area : String
  salaries : ℚ
  benefits : ℚ
  subscriptions : ℚ
  total : ℚ
  fte : ℚ
deriving DecidableEq

/-- `CostNature` (`models/costs.py`). -/
inductive CostNature where
  | FIXED
  | VARIABLE
deriving DecidableEq

/-- `CostAllocation` (`models/costs.py`). -/
inductive CostAllocation where
  | COGS
  | OPEX
deriving DecidableEq

/-- `CostCenter` (`models/costs.py`). -/
inductive CostCenter where
  | ENGINEERING
  | PRODUCT
  | SALES
  | MARKETING
  | CS
  | GNA
  | OTHER
deriving DecidableEq

/-- `CostItem` (`models/costs.py`). -/
structure CostItem where
  nature : CostNature
  allocation : CostAllocation
  cost_center : CostCenter := .OTHER
  base_amount : ℚ
  variable_rate : ℚ := 0
  driver : String := "revenue"
  price_adjustment : PriceAdjustment := {}
  schedule : MonthlySchedule := ⟨1, []⟩
deriving DecidableEq

/-- `SupplierContract` (`models/costs.py`). -/
structure SupplierContract where
  start_month : ℤ
  base_amount : ℚ
  escalation_pct : ℚ := 0
  escalation_frequency_months : ℤ := 12
  allocation : CostAllocation := .OPEX
  cost_center : CostCenter := .OTHER
deriving DecidableEq

/-- `CostModel` (`models/costs.py`). -/
structure CostModel where
  items : List CostItem := []
  supplier_contracts : List SupplierContract := []
  cogs_variable_pct : ℚ := 0
  cogs_per_customer : ℚ := 0
deriving DecidableEq

/-- `CostBreakdown` (`models/costs.py`). -/
structure CostBreakdown where
  cost_center : CostCenter
  amount : ℚ
deriving DecidableEq

/-- `TaxBase` (`models/taxes.py`). -/
inductive TaxBase where
  | GROSS_REVENUE
  | NET_REVENUE
  | EBIT
  | EBT
  | PAYROLL
deriving DecidableEq

/-- `TaxComponent` (`models/taxes.py`). -/
structure TaxComponent where
  name : String
  base : TaxBase
  rate : ℚ
deriving DecidableEq

/-- `TaxModel` (`models/taxes.py`); `progressive` and `credits` are carried by
the schema but never read by the calculator. -/
structure TaxModel where
  taxes : List TaxComponent := []
  effective_income_tax_rate : ℚ := 0
deriving DecidableEq

/-- `TaxBreakdown` (`models/taxes.py`). -/
structure TaxBreakdown where
  name : String
  amount : ℚ
deriving DecidableEq

/-- `CapexItem` (`models/capex.py`). -/
structure CapexItem where
  month_index : ℤ
  amount : ℚ
  useful_life_months : ℤ
  salvage_value : ℚ := 0
deriving DecidableEq

/-- `CapexModel` (`models/capex.py`). -/
structure CapexModel where
  items : List CapexItem
deriving DecidableEq

/-- `WorkingCapitalModel` (`models/working_capital.py`). -/
structure WorkingCapitalModel where
  dso : ℚ := 0
  dpo : ℚ := 0
  dio : ℚ := 0
  min_cash_balance : ℚ := 0
deriving DecidableEq

/-- `WorkingCapitalDelta` (`models/working_capital.py`). -/
structure WorkingCapitalDelta where
  change_ar : ℚ
  change_ap : ℚ
  change_inventory : ℚ
  total_change : ℚ
deriving DecidableEq

/-- `EquityRound` (`models/funding.py`). -/
structure EquityRound where
  month_index : ℤ
  amount : ℚ
deriving DecidableEq

/-- `DebtInstrument` (`models/funding.py`); `debt_type` is carried by the
schema but never read by `_compute_debt`. -/
structure DebtInstrument where
  name : String
  month_index : ℤ
  amount : ℚ
  interest_rate_annual : ℚ
  term_months : ℤ
  grace_period_months : ℤ := 0
deriving DecidableEq

/-- `FundingModel` (`models/funding.py`). -/
structure FundingModel where
  equity_rounds : List EquityRound := []
  debt : List DebtInstrument := []
deriving DecidableEq

/-- `TerminalValueMethod` (`models/valuation.py`). -/
inductive TerminalValueMethod where
  | PERPETUITY
  | MULTIPLE
deriving DecidableEq

/-- `MultipleMetric` (`models/valuation.py`). -/
inductive MultipleMetric where
  | REVENUE
  | EBITDA
  | ARR
deriving DecidableEq

/-- `ValuationSettings` (`models/valuation.py`); `scorecard_weights` is a dict
keyed by criterion name. -/
structure ValuationSettings where
  wacc : ℚ
  perpetual_growth_rate : ℚ
  terminal_method : TerminalValueMethod := .PERPETUITY
  terminal_multiple : ℚ := 0
  terminal_multiple_metric : MultipleMetric := .EBITDA
  exit_year_multiple : ℚ := 0
  target_exit_year : ℤ := 5
  discount_rate_vc : ℚ := 3/10
  probability_of_success : ℚ := 1
  scorecard_weights : List (String × ℚ) := []
deriving DecidableEq

/-- `DiscountedCashFlowResult` (`models/valuation.py`). -/
structure DiscountedCashFlowResult where
  enterprise_value : ℚ
  equity_value : ℚ
  pv_of_cash_flows : ℚ
  pv_of_terminal_value : ℚ
  terminal_value : ℚ
  discount_factors : List ℚ
deriving DecidableEq

/-- `MultipleValuationResult` (`models/valuation.py`). -/
structure MultipleValuationResult where
  metric : MultipleMetric
  multiple : ℚ
  value : ℚ
deriving DecidableEq

/-- `VCValuationResult` (`models/valuation.py`). -/
structure VCValuationResult where
  exit_value : ℚ
  ownership_required : ℚ
  post_money : ℚ
  pre_money : ℚ
deriving DecidableEq

/-- `ScorecardValuationResult` (`models/valuation.py`). -/
structure ScorecardValuationResult where
  total_score : ℚ
  valuation : ℚ
deriving DecidableEq

/-- `ValuationResult` (`models/valuation.py`). -/
structure ValuationResult where
  dcf : DiscountedCashFlowResult
  multiples : List MultipleValuationResult
  vc_method : VCValuationResult
  scorecard : Option ScorecardValuationResult := none
deriving DecidableEq

/-- `ScenarioInput` (`models/scenario.py`); `meta` and `currency` are carried
metadata never read by the calculator. -/
structure ScenarioInput where
  timeframe : TimeframeSettings
  company_state : CompanyState
  revenue : RevenueModel
  headcount : HeadcountModel
  costs : CostModel
  taxes : TaxModel
  capex : CapexModel
  working_capital : WorkingCapitalModel
  funding : FundingModel
  valuation : ValuationSettings
deriving DecidableEq

/-- `IncomeStatement` (`models/results.py`). -/
structure IncomeStatement where
  gross_revenue : ℚ
  revenue_taxes : ℚ
  net_revenue : ℚ
  cogs : ℚ
  gross_margin : ℚ
  operating_expenses : ℚ
  ebitda : ℚ
  depreciation : ℚ
  amortization : ℚ
  ebit : ℚ
  interest : ℚ
  ebt : ℚ
  income_tax : ℚ
  net_income : ℚ
deriving DecidableEq

/-- `BalanceSheet` (`models/results.py`). -/
structure BalanceSheet where
  cash : ℚ
  accounts_receivable : ℚ
  inventory : ℚ
  fixed_assets : ℚ
  accumulated_depreciation : ℚ
  accounts_payable : ℚ
  debt : ℚ
  equity : ℚ
deriving DecidableEq

/-- `CashFlowStatement` (`models/results.py`). -/
structure CashFlowStatement where
  operating_cash_flow : ℚ
  investing_cash_flow : ℚ
  financing_cash_flow : ℚ
  net_change_in_cash : ℚ
  ending_cash : ℚ
  fcff : ℚ
  fcfe : ℚ
deriving DecidableEq

/-- `MonthlyProjection` (`models/results.py`). -/
structure MonthlyProjection where
  period_start : Date
  income_statement : IncomeStatement
  balance_sheet : BalanceSheet
  cash_flow : CashFlowStatement
  revenue_summary : RevenueSummary
  headcount_breakdown : List HeadcountCostBreakdown
  cost_breakdown : List CostBreakdown
  tax_breakdown : List TaxBreakdown
  working_capital_delta : WorkingCapitalDelta
deriving DecidableEq

/-- `AnnualSummary` (`models/results.py`). -/
structure AnnualSummary where
  year : ℤ
  income_statement : IncomeStatement
  cash_flow : CashFlowStatement
deriving DecidableEq

/-- `ScenarioResult` (`models/results.py`); the `dashboards` payload is a
presentation-layer re-projection of `monthly`/`valuation` that no claim
concerns, and is omitted. -/
structure ScenarioResult where
  monthly : List MonthlyProjection
  annual : List AnnualSummary
  valuation : ValuationResult
deriving DecidableEq

/-- `PlanState` (`calculator.py`): per-plan running state; `deferred_revenue` is
a FIFO with head at the front. -/
structure PlanState where
  active_customers : ℚ
  deferred_revenue : List ℚ
deriving DecidableEq

/-- `HeadcountState` (`calculator.py`). -/
structure HeadcountState where
  position : HeadcountPosition
  fte : ℚ
  current_salary : ℚ
deriving DecidableEq

/-- `DebtState` (`calculator.py`). -/
structure DebtState where
  name : String
  outstanding : ℚ
  interest_rate : ℚ
  term_months : ℤ
  remaining_term : ℤ
  grace_months : ℤ
deriving DecidableEq

/-- Depreciation track `(remaining_months, amount, salvage)` (`calculator.py`). -/
structure DepTrack where
  remaining : ℤ
  amount : ℚ
  salvage : ℚ
deriving DecidableEq

/-- Per-plan figures produced inside one `_compute_revenue` iteration. -/
structure PlanFigures where
  gross : ℚ
  recognized : ℚ
  discount : ℚ
  churn_rev : ℚ
  expansion : ℚ
deriving DecidableEq

/-- The body of the per-plan loop of `_compute_revenue` (calculator.py lines
255-287): customer transition, ARPA, gross build-up, and the deferral queue
(push `gross` on the tail, pop the head, divide by `max(1, k)`). Returns the
updated `PlanState` and the figures aggregated into the summary. -/
def planStep (month_index : ℕ) (plan : RevenuePlan) (st : PlanState) : PlanState × PlanFigures :=
  let new_customers := max 0 (plan.new_customers.value_for month_index)
  let churn_rate := plan.churn_rate.value_for month_index
  let expansion_rate := plan.expansion_rate.value_for month_index
  let contraction_rate := plan.contraction_rate.value_for month_index
  let arpa_growth := plan.arpa_growth_rate.value_for month_index
  let seasonal_factor := plan.seasonal_pattern.factor month_index
  let churned_customers := st.active_customers * churn_rate
  let active_customers := max 0 (st.active_customers + new_customers - churned_customers)
  let arpa := plan.initial_arpa * (1 + arpa_growth) ^ (month_index + 1) * seasonal_factor
  let base_revenue := active_customers * arpa
  let discount := base_revenue * plan.discount_rate.value_for month_index
  let expansion_revenue := base_revenue * expansion_rate
  let contraction_revenue := base_revenue * contraction_rate
  let services_revenue := plan.services_attach_rate * new_customers * plan.services_asp
  let transactional_revenue := plan.transactional_volume.value_for month_index * plan.transactional_fee
  let gross_revenue := base_revenue + expansion_revenue - contraction_revenue
    + services_revenue + transactional_revenue
  if 0 < plan.revenue_deferral_months then
    let queue := st.deferred_revenue ++ [gross_revenue]
    let head := queue.headD 0
    let recognized := head / (max 1 plan.revenue_deferral_months : ℤ)
    (⟨active_customers, queue.tail⟩,
     ⟨gross_revenue, recognized, discount, churned_customers * arpa, expansion_revenue⟩)
  else
    (⟨active_customers, st.deferred_revenue⟩,
     ⟨gross_revenue, gross_revenue, discount, churned_customers * arpa, expansion_revenue⟩)

/-- The plan-state map update performed for one plan inside `_compute_revenue`
(dict read, `planStep`, dict write back). -/
def planFold (month_index : ℕ) (states : List (String × PlanState)) (plan : RevenuePlan) :
    List (String × PlanState) :=
  let st := (lookupA plan.name states).getD ⟨0, []⟩
  updateA plan.name (planStep month_index plan st).1 states

/-- One plan's contribution inside the `_compute_revenue` loop: the state map
update of `planFold` paired with the summary accumulation. -/
def revFoldStep (month_index : ℕ) (acc : List (String × PlanState) × RevenueSummary)
    (plan : RevenuePlan) : List (String × PlanState) × RevenueSummary :=
  let st := (lookupA plan.name acc.1).getD ⟨0, []⟩
  let r := planStep month_index plan st
  (updateA plan.name r.1 acc.1,
   ⟨acc.2.total_gross + r.2.gross,
    acc.2.total_net + (r.2.recognized - r.2.discount),
    acc.2.total_churn + r.2.churn_rev,
    acc.2.total_expansion + r.2.expansion,
    acc.2.arr + r.2.recognized * 12⟩)

/-- `_compute_revenue` (calculator.py lines 244-298): folds `revFoldStep` over
the plans in declaration order, then adds the model-level schedules. Returns
the updated state map and the `RevenueSummary`. -/
def computeRevenue (month_index : ℕ) (rm : RevenueModel)
    (states : List (String × PlanState)) : List (String × PlanState) × RevenueSummary :=
  let out := rm.plans.foldl (revFoldStep month_index) (states, ⟨0, 0, 0, 0, 0⟩)
  (out.1,
   { out.2 with
     total_gross := out.2.total_gross + rm.professional_services_revenue.value_for month_index,
     total_net := out.2.total_net + rm.other_recurring_revenue.value_for month_index })

/-- Per-area accumulator of `_compute_headcount`. -/
structure AreaTotals where
  salaries : ℚ := 0
  benefits : ℚ := 0
  subscriptions : ℚ := 0
  total : ℚ := 0
  fte : ℚ := 0
deriving DecidableEq

/-- The hires phase of `_compute_headcount` (calculator.py lines 309-318): for
each hire of this month, create the state from the first matching position if
the role is absent (skipping the hire entirely when no position matches), then
add the quantity and apply a truthy (non-`None`, nonzero) salary override. -/
def hiresPhase (positions : List HeadcountPosition) (hires : List HiringPlan)
    (states : List (String × HeadcountState)) : List (String × HeadcountState) :=
  hires.foldl
    (fun states hire =>
      let states :=
        if (lookupA hire.role states).isSome then states
        else
          match positions.find? (fun pos => pos.role = hire.role) with
          | none => states
          | some matching => states ++ [(hire.role, ⟨matching, 0, matching.base_salary⟩)]
      match lookupA hire.role states with
      | none => states
      | some st =>
        let st := { st with fte := st.fte + hire.quantity }
        let st :=
          match hire.salary_override with
          | some so => if so = 0 then st else { st with current_salary := so }
          | none => st
        updateA hire.role st states)
    states

/-- One state's attrition and cost build inside `_compute_headcount`
(calculator.py lines 324-341), applied to post-hire states with `fte > 0`. -/
def headcountCost (month_index : ℕ) (attrition_rate : ℚ) (st : HeadcountState) :
    HeadcountState × ℚ × AreaTotals :=
  let fte := st.fte * (1 - attrition_rate)
  let monthly_salary := st.current_salary / 12
  let salary_cost := fte * monthly_salary
  let benefits := salary_cost * st.position.benefits_pct + fte * st.position.benefits_fixed
  let bonus := salary_cost * st.position.bonus_pct
  let payroll_taxes := salary_cost * st.position.payroll_taxes_pct
  let subs_cost := ((st.position.subscriptions.map
      (fun sub => sub.monthly_cost * (1 + sub.price_adjustment.factor_for_month month_index))).sum) * fte
  let total := salary_cost + benefits + bonus + payroll_taxes + subs_cost
  ({ st with fte := fte }, total,
   ⟨salary_cost, benefits + bonus + payroll_taxes, subs_cost, total, fte⟩)

/-- `_compute_headcount` (calculator.py lines 300-354): hires, then attrition
and cost accumulation per area in state insertion order (states with
`fte ≤ 0` are kept but skipped). Returns the updated state map, the per-area
breakdown, and `payroll_total`. -/
def computeHeadcount (month_index : ℕ) (hm : HeadcountModel)
    (states : List (String × HeadcountState)) :
    List (String × HeadcountState) × List HeadcountCostBreakdown × ℚ :=
  let states := hiresPhase hm.positions (hm.hires.filter (fun h => h.month_index = (month_index : ℤ))) states
  let attrition_rate := hm.attrition_pct.value_for month_index
  let out := states.foldl
    (fun (acc : List (String × HeadcountState) × List (String × AreaTotals) × ℚ) entry =>
      if entry.2.fte ≤ 0 then (acc.1 ++ [entry], acc.2)
      else
        let r := headcountCost month_index attrition_rate entry.2
        let cur := (lookupA entry.2.position.area acc.2.1).getD {}
        let upd : AreaTotals :=
          ⟨cur.salaries + r.2.2.salaries, cur.benefits + r.2.2.benefits,
           cur.subscriptions + r.2.2.subscriptions, cur.total + r.2.2.total,
           cur.fte + r.2.2.fte⟩
        (acc.1 ++ [(entry.1, r.1)], updateA entry.2.position.area upd acc.2.1, acc.2.2 + r.2.1))
    ([], [], 0)
  (out.1,
   out.2.1.map (fun av => ⟨av.1, av.2.salaries, av.2.benefits, av.2.subscriptions, av.2.total, av.2.fte⟩),
   out.2.2)

/-- `_compute_costs` (calculator.py lines 356-388): cost items (variable costs
driven by net or gross revenue), then supplier contracts with floor-division
escalation. Returns the per-cost-center breakdown, `cogs_total`, `opex_total`. -/
def computeCosts (month_index : ℕ) (cost_model : CostModel)
    (revenue_summary : RevenueSummary) : List CostBreakdown × ℚ × ℚ :=
  let out := cost_model.items.foldl
    (fun (acc : List (CostCenter × ℚ) × ℚ × ℚ) item =>
      let base_amount :=
        match item.nature with
        | .VARIABLE =>
          (if item.driver = "revenue" then revenue_summary.total_net else revenue_summary.total_gross)
            * item.variable_rate
        | .FIXED => item.base_amount
      let amount := base_amount * item.schedule.value_for month_index
        * (1 + item.price_adjustment.factor_for_month month_index)
      let cur := (lookupA item.cost_center acc.1).getD 0
      (updateA item.cost_center (cur + amount) acc.1,
       match item.allocation with
       | .COGS => (acc.2.1 + amount, acc.2.2)
       | .OPEX => (acc.2.1, acc.2.2 + amount)))
    ([], 0, 0)
  let out := cost_model.supplier_contracts.foldl
    (fun (acc : List (CostCenter × ℚ) × ℚ × ℚ) contract =>
      if (month_index : ℤ) < contract.start_month then acc
      else
        let escalations := max 0 (((month_index : ℤ) - contract.start_month).fdiv contract.escalation_frequency_months)
        let amount := contract.base_amount * (1 + contract.escalation_pct) ^ escalations.toNat
        let cur := (lookupA contract.cost_center acc.1).getD 0
        (updateA contract.cost_center (cur + amount) acc.1,
         match contract.allocation with
         | .COGS => (acc.2.1 + amount, acc.2.2)
         | .OPEX => (acc.2.1, acc.2.2 + amount)))
    out
  (out.1.map (fun cv => ⟨cv.1, cv.2⟩), out.2.1, out.2.2)

/-- `_compute_revenue_taxes` (calculator.py lines 390-409): each component is
valued on its base (`ebit`/`ebt` fall back to `total_net` via `dict.get`);
only `gross_revenue`/`net_revenue` components accumulate into the deducted
amount. -/
def computeRevenueTaxes (revenue_summary : RevenueSummary) (tax_model : TaxModel)
    (payroll_total : ℚ) : ℚ × List TaxBreakdown :=
  tax_model.taxes.foldl
    (fun (acc : ℚ × List TaxBreakdown) tax =>
      let base :=
        match tax.base with
        | .GROSS_REVENUE => revenue_summary.total_gross
        | .NET_REVENUE => revenue_summary.total_net
        | .PAYROLL => payroll_total
        | .EBIT => revenue_summary.total_net
        | .EBT => revenue_summary.total_net
      let amount := base * tax.rate
      (acc.1 + (match tax.base with
        | .GROSS_REVENUE => amount
        | .NET_REVENUE => amount
        | _ => 0),
       acc.2 ++ [⟨tax.name, amount⟩]))
    (0, [])

/-- `_compute_depreciation` (calculator.py lines 411-434): capex items arriving
this month increase `fixed_assets` and append a `(useful_life, amount,
salvage)` track; each live track contributes `max(0, (amount - salvage) /
remaining)` and is retained with `remaining - 1` (note the source never
reduces `amount`). Returns `(depreciation, accumulated, fixed_assets)` and
the updated tracks. -/
def computeDepreciation (month_index : ℕ) (items : List CapexItem)
    (tracks : List DepTrack) (fixed_assets accumulated_depreciation : ℚ) :
    (ℚ × ℚ × ℚ) × List DepTrack :=
  let arrivals := items.filter (fun it => it.month_index = (month_index : ℤ))
  let fixed_assets := fixed_assets + (arrivals.map (fun it => it.amount)).sum
  let tracks := tracks ++ arrivals.map (fun it => ⟨it.useful_life_months, it.amount, it.salvage_value⟩)
  let live := tracks.filter (fun t => 0 < t.remaining)
  let depreciation := (live.map (fun t => max 0 ((t.amount - t.salvage) / (t.remaining : ℚ)))).sum
  ((depreciation, accumulated_depreciation + depreciation, fixed_assets),
   live.map (fun t => ⟨t.remaining - 1, t.amount, t.salvage⟩))

/-- `_compute_debt` (calculator.py lines 436-479): instruments scheduled this
month enter as fresh states; each live state accrues `outstanding * rate/12`
interest; grace months only tick down; otherwise the straight principal
`outstanding / remaining_term` (all of it when the term is exhausted) is paid
and the state is retained only while `outstanding > 1e-6`. States with
`outstanding ≤ 0` are dropped. Returns `(interest_expense, principal_paid)`
and the updated states. -/
def computeDebt (month_index : ℕ) (funding_model : FundingModel)
    (debt_states : List DebtState) : (ℚ × ℚ) × List DebtState :=
  let states := debt_states ++ (funding_model.debt.filter (fun i => i.month_index = (month_index : ℤ))).map
    (fun i => ⟨i.name, i.amount, i.interest_rate_annual, i.term_months, i.term_months, i.grace_period_months⟩)
  let out := states.foldl
    (fun (acc : (ℚ × ℚ) × List DebtState) st =>
      if st.outstanding ≤ 0 then acc
      else
        let interest := st.outstanding * (st.interest_rate / 12)
        let acc1 := ((acc.1.1 + interest, acc.1.2), acc.2)
        if 0 < st.grace_months then
          (acc1.1, acc1.2 ++ [{ st with grace_months := st.grace_months - 1 }])
        else
          let principal_payment :=
            if 0 < st.remaining_term then st.outstanding / (st.remaining_term : ℚ)
            else st.outstanding
          let principal_payment := min principal_payment st.outstanding
          let outstanding := st.outstanding - principal_payment
          let st := { st with outstanding := outstanding, remaining_term := max 0 (st.remaining_term - 1) }
          ((acc1.1.1, acc1.1.2 + principal_payment),
           if 1/1000000 < outstanding then acc1.2 ++ [st] else acc1.2))
    ((0, 0), [])
  (out.1, out.2)

/-- `_compute_working_capital` (calculator.py lines 481-503). -/
def computeWorkingCapital (wc_model : WorkingCapitalModel) (net_revenue cost_base : ℚ)
    (revenue_summary : RevenueSummary) (previous_ar previous_ap previous_inventory : ℚ) :
    WorkingCapitalDelta :=
  let target_ar := net_revenue * (wc_model.dso / 30)
  let target_ap := cost_base * (wc_model.dpo / 30)
  let target_inventory := revenue_summary.total_gross * (wc_model.dio / 30)
  let change_ar := target_ar - previous_ar
  let change_ap := target_ap - previous_ap
  let change_inventory := target_inventory - previous_inventory
  ⟨change_ar, change_ap, change_inventory, change_ar - change_ap + change_inventory⟩

/-- `_funding_inflows` (calculator.py lines 505-508). -/
def fundingInflows (month_index : ℕ) (funding_model : FundingModel) : ℚ × ℚ :=
  (((funding_model.equity_rounds.filter (fun r => r.month_index = (month_index : ℤ))).map
      (fun r => r.amount)).sum,
   ((funding_model.debt.filter (fun i => i.month_index = (month_index : ℤ))).map
      (fun i => i.amount)).sum)

/-- The mutable balances and sub-model states carried across months by `run`. -/
structure RunState where
  planStates : List (String × PlanState)
  headStates : List (String × HeadcountState)
  debtStates : List DebtState
  depTracks : List DepTrack
  cash : ℚ
  accounts_receivable : ℚ
  accounts_payable : ℚ
  inventory : ℚ
  fixed_assets : ℚ
  accumulated_depreciation : ℚ
  debt_balance : ℚ
  equity : ℚ
deriving DecidableEq

/-- One entry of the initial plan-state dict comprehension (calculator.py
line 62): a fresh `PlanState` with `deque([0.0] * revenue_deferral_months)`. -/
def initPlanFold (acc : List (String × PlanState)) (plan : RevenuePlan) :
    List (String × PlanState) :=
  updateA plan.name
    ⟨plan.initial_customers, List.replicate plan.revenue_deferral_months.toNat 0⟩ acc

/-- Initial plan-state map (calculator.py line 62): dict comprehension keyed by
plan name. -/
def initPlanStates (plans : List RevenuePlan) : List (String × PlanState) :=
  plans.foldl initPlanFold []

/-- Initial headcount-state map (calculator.py line 63). -/
def initHeadStates (positions : List HeadcountPosition) : List (String × HeadcountState) :=
  positions.foldl
    (fun acc pos => updateA pos.role ⟨pos, pos.current_fte, pos.base_salary⟩ acc)
    []

/-- The state set up at the start of `run` (calculator.py lines 62-81); the
initial equity is the Python expression
`company_state.equity or (company_state.cash + company_state.net_fixed_assets())`. -/
def initState (s : ScenarioInput) : RunState :=
  { planStates := initPlanStates s.revenue.plans
    headStates := initHeadStates s.headcount.positions
    debtStates := []
    depTracks := []
    cash := s.company_state.cash
    accounts_receivable := s.company_state.accounts_receivable
    accounts_payable := s.company_state.accounts_payable
    inventory := s.company_state.inventory
    fixed_assets := s.company_state.fixed_assets
    accumulated_depreciation := s.company_state.accumulated_depreciation
    debt_balance := s.company_state.debt
    equity := pyOr s.company_state.equity (s.company_state.cash + s.company_state.net_fixed_assets) }

/-- One month's output: the emitted `MonthlyProjection` together with the loop
locals the statements were assembled from that the claims inspect
(`principal_paid`, the equity raise, the pre-backstop financing flow, the
backstop shortfall, and the equity balance the month started from). -/
structure MonthLocals where
  projection : MonthlyProjection
  principal_paid : ℚ
  equity_raise : ℚ
  financing_pre : ℚ
  shortfall : ℚ
  cash_start : ℚ
  equity_start : ℚ
deriving DecidableEq

/-- One iteration of the monthly loop of `run` (calculator.py lines 89-234),
in source order: revenue, headcount, costs, the two extra COGS adjustments,
revenue taxes, P&L, depreciation, debt, working capital, cash flows, the
min-cash backstop, and the equity update. -/
def monthStep (s : ScenarioInput) (month_index : ℕ) (st : RunState) : RunState × MonthLocals :=
  let period_start := addMonths s.timeframe.start_date (month_index : ℤ)
  let revOut := computeRevenue month_index s.revenue st.planStates
  let plan_states := revOut.1
  let revenue_summary := revOut.2
  let headOut := computeHeadcount month_index s.headcount st.headStates
  let headcount_states := headOut.1
  let headcount_breakdown := headOut.2.1
  let payroll_total := headOut.2.2
  let costOut := computeCosts month_index s.costs revenue_summary
  let cost_breakdown := costOut.1
  let total_cogs := costOut.2.1
    + s.costs.cogs_per_customer * ((plan_states.map (fun e => e.2.active_customers)).sum)
    + s.costs.cogs_variable_pct * revenue_summary.total_net
  let total_opex := costOut.2.2
  let taxOut := computeRevenueTaxes revenue_summary s.taxes payroll_total
  let revenue_taxes_amount := taxOut.1
  let tax_breakdown := taxOut.2
  let gross_revenue := revenue_summary.total_gross
  let net_revenue := revenue_summary.total_net - revenue_taxes_amount
  let gross_margin := net_revenue - total_cogs
  let operating_expenses := total_opex + payroll_total
  let ebitda := gross_margin - operating_expenses
  let depOut := computeDepreciation month_index s.capex.items st.depTracks
    st.fixed_assets st.accumulated_depreciation
  let depreciation := depOut.1.1
  let accumulated_depreciation := depOut.1.2.1
  let fixed_assets := depOut.1.2.2
  let amortization : ℚ := 0
  let ebit := ebitda - depreciation - amortization
  let debtOut := computeDebt month_index s.funding st.debtStates
  let interest_expense := debtOut.1.1
  let principal_paid := debtOut.1.2
  let debt_balance := st.debt_balance
    + ((s.funding.debt.filter (fun i => i.month_index = (month_index : ℤ))).map (fun i => i.amount)).sum
    - principal_paid
  let ebt := ebit - interest_expense
  let income_tax := max 0 ebt * s.taxes.effective_income_tax_rate
  let net_income := ebt - income_tax
  let working_capital_delta := computeWorkingCapital s.working_capital net_revenue
    (total_cogs + operating_expenses) revenue_summary
    st.accounts_receivable st.accounts_payable st.inventory
  let accounts_receivable := st.accounts_receivable + working_capital_delta.change_ar
  let accounts_payable := st.accounts_payable + working_capital_delta.change_ap
  let inventory := st.inventory + working_capital_delta.change_inventory
  let capex_amount := ((s.capex.items.filter (fun it => it.month_index = (month_index : ℤ))).map
      (fun it => it.amount)).sum
  let operating_cash_flow := net_income + depreciation + amortization - working_capital_delta.total_change
  let investing_cash_flow := -capex_amount
  let inflows := fundingInflows month_index s.funding
  let equity_raise := inflows.1
  let debt_inflows := inflows.2
  let financing_cash_flow := equity_raise + debt_inflows - principal_paid - interest_expense
  let fcff := ebit * (1 - s.taxes.effective_income_tax_rate) + depreciation + amortization
    - working_capital_delta.total_change - capex_amount
  let fcfe := fcff - principal_paid + debt_inflows
  let net_change_in_cash := operating_cash_flow + investing_cash_flow + financing_cash_flow
  let cash1 := st.cash + net_change_in_cash
  let shortfall :=
    if cash1 < s.working_capital.min_cash_balance then s.working_capital.min_cash_balance - cash1
    else 0
  let cash := cash1 + shortfall
  let financing_cash_flow2 := financing_cash_flow + shortfall
  let equity := st.equity + shortfall + net_income + equity_raise
  let income_statement : IncomeStatement :=
    ⟨gross_revenue, revenue_taxes_amount, net_revenue, total_cogs, gross_margin,
     operating_expenses, ebitda, depreciation, amortization, ebit, interest_expense,
     ebt, income_tax, net_income⟩
  let balance_sheet : BalanceSheet :=
    ⟨cash, accounts_receivable, inventory, fixed_assets, accumulated_depreciation,
     accounts_payable, debt_balance, equity⟩
  let cash_flow : CashFlowStatement :=
    ⟨operating_cash_flow, investing_cash_flow, financing_cash_flow2, net_change_in_cash,
     cash, fcff, fcfe⟩
  ({ planStates := plan_states
     headStates := headcount_states
     debtStates := debtOut.2
     depTracks := depOut.2
     cash := cash
     accounts_receivable := accounts_receivable
     accounts_payable := accounts_payable
     inventory := inventory
     fixed_assets := fixed_assets
     accumulated_depreciation := accumulated_depreciation
     debt_balance := debt_balance
     equity := equity },
   ⟨⟨period_start, income_statement, balance_sheet, cash_flow, revenue_summary,
     headcount_breakdown, cost_breakdown, tax_breakdown, working_capital_delta⟩,
    principal_paid, equity_raise, financing_cash_flow, shortfall, st.cash, st.equity⟩)

/-- Iterate `monthStep` for `n` months starting at month index `k`, collecting
the per-month outputs in order. -/
def stepsFrom (s : ScenarioInput) : ℕ → ℕ → RunState → RunState × List MonthLocals
  | _, 0, st => (st, [])
  | k, n + 1, st =>
    let out := monthStep s k st
    let rest := stepsFrom s (k + 1) n out.1
    (rest.1, out.2 :: rest.2)

/-- The monthly loop of `run`: all per-month outputs from the initial state
(Python `range(months)`, empty for a non-positive count). -/
def monthLocals (s : ScenarioInput) : List MonthLocals :=
  (stepsFrom s 0 s.timeframe.months.toNat (initState s)).2

/-- The `monthly_results` list assembled by `run`. -/
def runMonthly (s : ScenarioInput) : List MonthlyProjection :=
  (monthLocals s).map (fun o => o.projection)

/-- Per-year income-statement accumulator of `_accumulate_annual`
(gross margin is not accumulated; `_build_annual_summaries` recomputes it). -/
structure AnnAcc where
  gross_revenue : ℚ := 0
  revenue_taxes : ℚ := 0
  net_revenue : ℚ := 0
  cogs : ℚ := 0
  operating_expenses : ℚ := 0
  ebitda : ℚ := 0
  depreciation : ℚ := 0
  amortization : ℚ := 0
  ebit : ℚ := 0
  interest : ℚ := 0
  ebt : ℚ := 0
  income_tax : ℚ := 0
  net_income : ℚ := 0
deriving DecidableEq

/-- Per-year cash-flow accumulator of `_accumulate_annual`. -/
structure CashAcc where
  operating : ℚ := 0
  investing : ℚ := 0
  financing : ℚ := 0
  fcff : ℚ := 0
  fcfe : ℚ := 0
deriving DecidableEq

/-- `_accumulate_annual` (calculator.py lines 510-539) folded over the monthly
projections: a defaultdict keyed by `period_start.year`. -/
def accumAnnual (projs : List MonthlyProjection) : List (ℤ × (AnnAcc × CashAcc)) :=
  projs.foldl
    (fun acc mo =>
      let year := mo.period_start.year
      let cur := (lookupA year acc).getD ({}, {})
      let i := mo.income_statement
      let c := mo.cash_flow
      updateA year
        (⟨cur.1.gross_revenue + i.gross_revenue, cur.1.revenue_taxes + i.revenue_taxes,
          cur.1.net_revenue + i.net_revenue, cur.1.cogs + i.cogs,
          cur.1.operating_expenses + i.operating_expenses, cur.1.ebitda + i.ebitda,
          cur.1.depreciation + i.depreciation, cur.1.amortization + i.amortization,
          cur.1.ebit + i.ebit, cur.1.interest + i.interest, cur.1.ebt + i.ebt,
          cur.1.income_tax + i.income_tax, cur.1.net_income + i.net_income⟩,
         ⟨cur.2.operating + c.operating_cash_flow, cur.2.investing + c.investing_cash_flow,
          cur.2.financing + c.financing_cash_flow, cur.2.fcff + c.fcff, cur.2.fcfe + c.fcfe⟩)
        acc)
    []

/-- Ascending insertion sort (Python `sorted` over the year keys). -/
def insertSorted (x : ℤ) : List ℤ → List ℤ
  | [] => [x]
  | y :: ys => if x ≤ y then x :: y :: ys else y :: insertSorted x ys

/-- Ascending sort of the accumulator keys. -/
def sortInts : List ℤ → List ℤ
  | [] => []
  | x :: xs => insertSorted x (sortInts xs)

/-- `_build_annual_summaries` (calculator.py lines 541-576): one summary per
year in ascending order; `gross_margin` is recomputed from the sums,
`net_change_in_cash` from the three summed flows, and `ending_cash` is 0 by
contract. -/
def buildAnnualSummaries (accs : List (ℤ × (AnnAcc × CashAcc))) : List AnnualSummary :=
  (sortInts (accs.map (fun kv => kv.1))).map
    (fun year =>
      let a := (lookupA year accs).getD ({}, {})
      ⟨year,
       ⟨a.1.gross_revenue, a.1.revenue_taxes, a.1.net_revenue, a.1.cogs,
        a.1.net_revenue - a.1.cogs, a.1.operating_expenses, a.1.ebitda,
        a.1.depreciation, a.1.amortization, a.1.ebit, a.1.interest, a.1.ebt,
        a.1.income_tax, a.1.net_income⟩,
       ⟨a.2.operating, a.2.investing, a.2.financing,
        a.2.operating + a.2.investing + a.2.financing, 0, a.2.fcff, a.2.fcfe⟩⟩)

/-- The annual summaries `run` produces. -/
def annualOf (s : ScenarioInput) : List AnnualSummary :=
  buildAnnualSummaries (accumAnnual (runMonthly s))

/-- `_compute_terminal_value` (calculator.py lines 610-628): on an empty
annual list it returns 0 before touching any division; under the perpetuity
method Python's division by `wacc - perpetual_growth_rate` raises
`ZeroDivisionError` exactly when that difference is zero, modelled as the
`Except` error. -/
def computeTerminalValue (vs : ValuationSettings) (annual : List AnnualSummary) :
    Except String ℚ :=
  match annual.getLast? with
  | none => .ok 0
  | some last =>
    match vs.terminal_method with
    | .PERPETUITY =>
      if vs.wacc - vs.perpetual_growth_rate = 0 then .error "ZeroDivisionError"
      else
        let fcff := last.cash_flow.fcff / 12
        .ok (fcff * (1 + vs.perpetual_growth_rate) / (vs.wacc - vs.perpetual_growth_rate))
    | .MULTIPLE =>
      let metric_value :=
        match vs.terminal_multiple_metric with
        | .EBITDA => last.income_statement.ebitda
        | .REVENUE => last.income_statement.net_revenue
        | .ARR => last.income_statement.net_revenue
      .ok (metric_value * vs.terminal_multiple)

/-- `_compute_multiples` (calculator.py lines 630-647); the metric dict
iterates in insertion order EBITDA, REVENUE, ARR, and the non-terminal
multiple is the Python-truthy `exit_year_multiple or terminal_multiple`. -/
def computeMultiples (vs : ValuationSettings) (annual : List AnnualSummary) :
    List MultipleValuationResult :=
  match annual.getLast? with
  | none => []
  | some last =>
    ([(MultipleMetric.EBITDA, last.income_statement.ebitda),
      (MultipleMetric.REVENUE, last.income_statement.net_revenue),
      (MultipleMetric.ARR, last.income_statement.net_revenue)]).map
      (fun mv =>
        let multiple :=
          if mv.1 = vs.terminal_multiple_metric then vs.terminal_multiple
          else pyOr vs.exit_year_multiple vs.terminal_multiple
        ⟨mv.1, multiple, mv.2 * multiple⟩)

/-- The discounted exit value of `_compute_vc_method`:
`exit_value / (1 + discount_rate_vc) ** target_exit_year`. -/
def vcDiscountedExit (vs : ValuationSettings) (annual : List AnnualSummary) : ℚ :=
  match annual.getLast? with
  | none => 0
  | some last =>
    (last.income_statement.net_revenue * vs.exit_year_multiple)
      / (1 + vs.discount_rate_vc) ^ vs.target_exit_year

/-- `_compute_vc_method` (calculator.py lines 649-670): the required ownership
is `investment / (discounted_exit * probability_of_success)` when
`discounted_exit` is Python-truthy (nonzero), else 0, and is reported as
`min(1.0, required_ownership)` — clamped from above only. Python raises
`ZeroDivisionError` when the denominator
`(1 + discount_rate_vc) ** target_exit_year` is zero (at the power for a
negative exponent of a zero base, at the division otherwise), and when
`discounted_exit` is nonzero while `discounted_exit * probability_of_success`
is zero; both are the `Except` errors. `max(required_ownership, 1e-6)` is
at least `1e-6`, so the `post_money` division never raises. -/
def computeVCMethod (vs : ValuationSettings) (funding_model : FundingModel)
    (annual : List AnnualSummary) : Except String VCValuationResult :=
  match annual.getLast? with
  | none => .ok ⟨0, 0, 0, 0⟩
  | some last =>
    let exit_value := last.income_statement.net_revenue * vs.exit_year_multiple
    if (1 + vs.discount_rate_vc) ^ vs.target_exit_year = 0 then .error "ZeroDivisionError"
    else
      let discounted_exit := exit_value / (1 + vs.discount_rate_vc) ^ vs.target_exit_year
      let investment := ((funding_model.equity_rounds.map (fun r => r.amount)).sum)
      if discounted_exit ≠ 0 ∧ discounted_exit * vs.probability_of_success = 0 then
        .error "ZeroDivisionError"
      else
        let required_ownership :=
          if discounted_exit ≠ 0 then investment / (discounted_exit * vs.probability_of_success)
          else 0
        let post_money :=
          if required_ownership ≠ 0 then investment / max required_ownership (1/1000000)
          else exit_value
        let pre_money := post_money - investment
        .ok ⟨exit_value, min 1 required_ownership, post_money, pre_money⟩

/-- `_compute_scorecard` (calculator.py lines 672-679): `None` when the weight
dict is empty; otherwise each weight is divided by the total — the division
Python performs raises `ZeroDivisionError` exactly when the total is zero,
modelled as the `Except` error. -/
def computeScorecard (vs : ValuationSettings) (base_equity : ℚ) :
    Except String (Option ScorecardValuationResult) :=
  if vs.scorecard_weights = [] then .ok none
  else
    let total_weight := ((vs.scorecard_weights.map (fun kv => kv.2)).sum)
    if total_weight = 0 then .error "ZeroDivisionError"
    else
      let normalized := vs.scorecard_weights.map (fun kv => (kv.1, kv.2 / total_weight))
      let score := ((normalized.map (fun kv => kv.2)).sum)
      .ok (some ⟨score, base_equity * score⟩)

/-- The present value of the monthly FCFF stream in `_build_valuation`
(calculator.py lines 584-588), with `root` standing for
`(1 + wacc) ** (1 / 12)`, so that `discount_factors[i] = root ^ (i + 1)`. -/
def pvCashFlows (root : ℚ) (monthly : List MonthlyProjection) : ℚ :=
  let cash_flows := monthly.map (fun mo => mo.cash_flow.fcff)
  let discount_factors := (List.range cash_flows.length).map (fun i => root ^ (i + 1))
  ((cash_flows.zip discount_factors).map (fun cd => cd.1 / cd.2)).sum

/-- `_build_valuation` (calculator.py lines 578-608), with errors in the
source's order. The pv sum at line 588 divides each cash flow by
`(1 + wacc) ** (i / 12) = root ^ i` (`i ≥ 1`), which is zero exactly when
`root = 0` and the projection is non-empty — Python's first possible
`ZeroDivisionError` (it also covers the `pv_terminal` division at line 590,
whose denominator `root ^ len` is zero under the same condition). Then the
terminal value may raise (line 589), then `monthly_results[-1]` raises
`IndexError` on an empty projection (line 592), then the VC method
(line 605) and the scorecard (line 606) may raise. -/
def buildValuation (root : ℚ) (monthly : List MonthlyProjection)
    (annual : List AnnualSummary) (s : ScenarioInput) : Except String ValuationResult :=
  let cash_flows := monthly.map (fun mo => mo.cash_flow.fcff)
  let discount_factors := (List.range cash_flows.length).map (fun i => root ^ (i + 1))
  if cash_flows ≠ [] ∧ root = 0 then .error "ZeroDivisionError"
  else
    let pv_cash_flows := ((cash_flows.zip discount_factors).map (fun cd => cd.1 / cd.2)).sum
    match computeTerminalValue s.valuation annual with
    | .error e => .error e
    | .ok terminal_value =>
      let pv_terminal := terminal_value / root ^ cash_flows.length
      let enterprise_value := pv_cash_flows + pv_terminal
      match monthly.getLast? with
      | none => .error "IndexError"
      | some lastMonth =>
        let last_balance := lastMonth.balance_sheet
        let equity_value := enterprise_value - last_balance.debt + last_balance.cash
        let dcf_result : DiscountedCashFlowResult :=
          ⟨enterprise_value, equity_value, pv_cash_flows, pv_terminal, terminal_value,
           discount_factors⟩
        let multiples := computeMultiples s.valuation annual
        match computeVCMethod s.valuation s.funding annual with
        | .error e => .error e
        | .ok vc_method =>
          match computeScorecard s.valuation equity_value with
          | .error e => .error e
          | .ok scorecard => .ok ⟨dcf_result, multiples, vc_method, scorecard⟩

/-- `ScenarioCalculator.run` (calculator.py lines 59-242): the monthly loop,
the annual roll-up, and the valuation layer, parameterised by `root`
standing for `(1 + wacc) ** (1 / 12)`. -/
def run (root : ℚ) (s : ScenarioInput) : Except String ScenarioResult :=
  match buildValuation root (runMonthly s) (annualOf s) s with
  | .error e => .error e
  | .ok valuation => .ok ⟨runMonthly s, annualOf s, valuation⟩

/-- `TimeframeSettings(start_date=..., months=...)` as performed by the
vendored pydantic stub (`src/pydantic/__init__.py`): `conint(ge=1)` returns
plain `int` with the constraint dropped, and `BaseModel.__init__` raises only
for a missing required field, so any integer `months` is accepted. -/
def mkTimeframeSettings (start_date : Date) (months : ℤ) : Except String TimeframeSettings :=
  .ok ⟨start_date, months⟩

/-- `{ s with valuation.perpetual_growth_rate := g }`: the only input field the
two scenarios of the perpetuity-growth comparison differ in. -/
def setG (s : ScenarioInput) (g : ℚ) : ScenarioInput :=
  { s with valuation := { s.valuation with perpetual_growth_rate := g } }

/-- A date used by the concrete scenarios. -/
def d0 : Date := ⟨2024, 1, 1⟩

/-- A minimal valid scenario: one month, no activity, every model empty. -/
def emptyScenario : ScenarioInput :=
  { timeframe := ⟨d0, 1⟩
    company_state := { cash := 0 }
    revenue := { plans := [] }
    headcount := { positions := [] }
    costs := {}
    taxes := {}
    capex := ⟨[]⟩
    working_capital := {}
    funding := {}
    valuation := { wacc := 0, perpetual_growth_rate := 0 } }

/-- The S5 capex scenario: a single capex item `amount=36000,
useful_life_months=12, salvage_value=0` at month 0, no other activity,
13 months. -/
def S5sc : ScenarioInput :=
  { emptyScenario with
    timeframe := ⟨d0, 13⟩
    capex := ⟨[⟨0, 36000, 12, 0⟩]⟩ }

/-- The S3 debt scenario: one term instrument `amount=120000, rate=0.12,
term_months=12, grace=0` at month 0, no revenue, parameterised by the
horizon. -/
def S3sc (months : ℤ) : ScenarioInput :=
  { emptyScenario with
    timeframe := ⟨d0, months⟩
    funding := { debt := [⟨"loan", 0, 120000, 12/100, 12, 0⟩] } }

/-- A one-month scenario whose only revenue line is a negative
`other_recurring_revenue`, with a positive exit multiple and one positive
equity round: its discounted exit value is negative. The wacc is chosen as
`(101/100)^12 - 1`, so the monthly discount base `(1 + wacc) ** (1/12)` is
exactly `101/100` (rational), `wacc ≠ perpetual_growth_rate`, and no
denominator on the run's path is zero: the Python program completes at this
input and reports the negative `ownership_required`. -/
def C3sc : ScenarioInput :=
  { emptyScenario with
    revenue := { plans := [], other_recurring_revenue := ⟨-1000, []⟩ }
    funding := { equity_rounds := [⟨0, 5000⟩] }
    valuation := { wacc := (101 / 100 : ℚ) ^ 12 - 1, perpetual_growth_rate := 0,
                   exit_year_multiple := 10,
                   discount_rate_vc := 0, target_exit_year := 5,
                   probability_of_success := 1 } }

/-- A one-month scenario that triggers the min-cash backstop: no revenue, a
fixed operating cost, `min_cash_balance = 50000`, zero starting cash. The
terminal method is `multiple` (no `wacc - g` division), so the Python run
completes at this input. -/
def C8sc : ScenarioInput :=
  { emptyScenario with
    costs := { items := [{ nature := .FIXED, allocation := .OPEX, base_amount := 1000 }] }
    working_capital := { min_cash_balance := 50000 }
    valuation := { wacc := 0, perpetual_growth_rate := 0,
                   terminal_method := .MULTIPLE } }

/-- A revenue plan with a three-month deferral and a 10% discount. -/
def C5plan : RevenuePlan :=
  { name := "Deferred"
    initial_customers := 100
    initial_arpa := 1000
    new_customers := ⟨0, []⟩
    churn_rate := ⟨0, []⟩
    discount_rate := ⟨1/10, []⟩
    revenue_deferral_months := 3 }

/-- The S2-style deferred-recognition scenario: one plan with
`revenue_deferral_months = 3`, six months. -/
def C5sc : ScenarioInput :=
  { emptyScenario with
    timeframe := ⟨d0, 6⟩
    revenue := { plans := [C5plan] } }

/-- A one-month scenario with positive FCFF (1200 of other recurring revenue,
no costs), `wacc = 0.15`, perpetuity terminal method. -/
def C7sc : ScenarioInput :=
  { emptyScenario with
    revenue := { plans := [], other_recurring_revenue := ⟨1200, []⟩ }
    valuation := { wacc := 3/20, perpetual_growth_rate := 0,
                   terminal_method := .PERPETUITY } }

/-- A scenario whose scorecard weights are non-empty and sum to zero; the
terminal method is `multiple`, so the only raise point on its path is the
scorecard normalisation itself. -/
def C10err : ScenarioInput :=
  { emptyScenario with
    valuation := { wacc := 0, perpetual_growth_rate := 0,
                   terminal_method := .MULTIPLE,
                   scorecard_weights := [("a", 1), ("b", -1)] } }

/-- A scenario with non-empty scorecard weights of nonzero sum and the
division-free `multiple` terminal method: the Python run completes at this
input. -/
def C10ok : ScenarioInput :=
  { emptyScenario with
    valuation := { wacc := 0, perpetual_growth_rate := 0,
                   terminal_method := .MULTIPLE,
                   scorecard_weights := [("team", 1/2), ("market", 1/2)] } }

/-- The zero-month scenario the stub construction lets through. -/
def zeroMonthSc : ScenarioInput :=
  { emptyScenario with timeframe := ⟨d0, 0⟩ }

/-- All-zero income statement (placeholder for total `getD` accesses). -/
def zeroIncome : IncomeStatement := ⟨0, 0, 0, 0, 0, 0, 0, 0, 0, 0, 0, 0, 0, 0⟩

/-- All-zero balance sheet (placeholder for total `getD` accesses). -/
def zeroBalance : BalanceSheet := ⟨0, 0, 0, 0, 0, 0, 0, 0⟩

/-- All-zero cash-flow statement (placeholder for total `getD` accesses). -/
def zeroCashFlow : CashFlowStatement := ⟨0, 0, 0, 0, 0, 0, 0⟩

/-- Placeholder annual summary for total `getD`/`getLast?` accesses. -/
def annDefault : AnnualSummary := ⟨0, zeroIncome, zeroCashFlow⟩

/-- Placeholder monthly projection for total `getD` accesses. -/
def mpDefault : MonthlyProjection :=
  ⟨d0, zeroIncome, zeroBalance, zeroCashFlow, ⟨0, 0, 0, 0, 0⟩, [], [], [], ⟨0, 0, 0, 0⟩⟩

/-- Placeholder month record for total `getD` accesses. -/
def mlDefault : MonthLocals := ⟨mpDefault, 0, 0, 0, 0, 0, 0⟩

/-- Placeholder valuation result. -/
def emptyValuationResult : ValuationResult := ⟨⟨0, 0, 0, 0, 0, []⟩, [], ⟨0, 0, 0, 0⟩, none⟩

/-- Placeholder scenario result. -/
def emptyResult : ScenarioResult := ⟨[], [], emptyValuationResult⟩

/-- `ownership_required` of a run result; 999 (outside `[0, 1]` on the
positive side) when the run errored, so a negative value can only come from a
successfully produced `ScenarioResult`. -/
def ownershipOf (e : Except String ScenarioResult) : ℚ :=
  match e with
  | .ok r => r.valuation.vc_method.ownership_required
  | .error _ => 999

/-- `scorecard.total_score` of a run result; 999 when the run errored or the
scorecard is absent. -/
def scorecardScoreOf (e : Except String ScenarioResult) : ℚ :=
  match e with
  | .ok r =>
    match r.valuation.scorecard with
    | some sc => sc.total_score
    | none => 999
  | .error _ => 999

/-- The `ScenarioResult` of `run 1 C8sc` (used to witness the min-cash
invariant on a concrete run). -/
def C8res : ScenarioResult :=
  match run 1 C8sc with
  | .ok r => r
  | .error _ => emptyResult

/-- The `ScenarioResult` of `run 1 (setG C7sc 0)`. -/
def C7r0 : ScenarioResult :=
  match run 1 (setG C7sc 0) with
  | .ok r => r
  | .error _ => emptyResult

/-- The `ScenarioResult` of `run 1 (setG C7sc (1/20))`. -/
def C7r5 : ScenarioResult :=
  match run 1 (setG C7sc (1/20)) with
  | .ok r => r
  | .error _ => emptyResult

/-- Run states of the S5 capex scenario after each month (month-by-month
materialisation used by the depreciation evaluation). -/

def S5st1 : RunState :=
  ⟨[], [], [], [⟨11, 36000, 0⟩], 0, 0, 0, 0, 36000, (3000 : ℚ), 0, (33000 : ℚ)⟩

def S5st2 : RunState :=
  ⟨[], [], [], [⟨10, 36000, 0⟩], 0, 0, 0, 0, 36000, (69000 : ℚ)/11, 0, (327000 : ℚ)/11⟩

def S5st3 : RunState :=
  ⟨[], [], [], [⟨9, 36000, 0⟩], 0, 0, 0, 0, 36000, (108600 : ℚ)/11, 0, (287400 : ℚ)/11⟩

def S5st4 : RunState :=
  ⟨[], [], [], [⟨8, 36000, 0⟩], 0, 0, 0, 0, 36000, (152600 : ℚ)/11, 0, (243400 : ℚ)/11⟩

def S5st5 : RunState :=
  ⟨[], [], [], [⟨7, 36000, 0⟩], 0, 0, 0, 0, 36000, (202100 : ℚ)/11, 0, (193900 : ℚ)/11⟩

def S5st6 : RunState :=
  ⟨[], [], [], [⟨6, 36000, 0⟩], 0, 0, 0, 0, 36000, (1810700 : ℚ)/77, 0, (961300 : ℚ)/77⟩

def S5st7 : RunState :=
  ⟨[], [], [], [⟨5, 36000, 0⟩], 0, 0, 0, 0, 36000, (2272700 : ℚ)/77, 0, (499300 : ℚ)/77⟩

def S5st8 : RunState :=
  ⟨[], [], [], [⟨4, 36000, 0⟩], 0, 0, 0, 0, 36000, (2827100 : ℚ)/77, 0, (-55100 : ℚ)/77⟩

def S5st9 : RunState :=
  ⟨[], [], [], [⟨3, 36000, 0⟩], 0, 0, 0, 0, 36000, (3520100 : ℚ)/77, 0, (-748100 : ℚ)/77⟩

def S5st10 : RunState :=
  ⟨[], [], [], [⟨2, 36000, 0⟩], 0, 0, 0, 0, 36000, (4444100 : ℚ)/77, 0, (-1672100 : ℚ)/77⟩

def S5st11 : RunState :=
  ⟨[], [], [], [⟨1, 36000, 0⟩], 0, 0, 0, 0, 36000, (5830100 : ℚ)/77, 0, (-3058100 : ℚ)/77⟩

def S5st12 : RunState :=
  ⟨[], [], [], [⟨0, 36000, 0⟩], 0, 0, 0, 0, 36000, (8602100 : ℚ)/77, 0, (-5830100 : ℚ)/77⟩

/-- Run states of the S3 debt scenario after each month. -/

def S3st1 : RunState :=
  ⟨[], [], [⟨"loan", 110000, (3 : ℚ)/25, 12, 11, 0⟩], [], 107600, 0, 0, 0, 0, 0, 110000, -1200⟩

def S3st2 : RunState :=
  ⟨[], [], [⟨"loan", 100000, (3 : ℚ)/25, 12, 10, 0⟩], [], 95400, 0, 0, 0, 0, 0, 100000, -2300⟩

def S3st3 : RunState :=
  ⟨[], [], [⟨"loan", 90000, (3 : ℚ)/25, 12, 9, 0⟩], [], 83400, 0, 0, 0, 0, 0, 90000, -3300⟩

def S3st4 : RunState :=
  ⟨[], [], [⟨"loan", 80000, (3 : ℚ)/25, 12, 8, 0⟩], [], 71600, 0, 0, 0, 0, 0, 80000, -4200⟩

def S3st5 : RunState :=
  ⟨[], [], [⟨"loan", 70000, (3 : ℚ)/25, 12, 7, 0⟩], [], 60000, 0, 0, 0, 0, 0, 70000, -5000⟩

def S3st6 : RunState :=
  ⟨[], [], [⟨"loan", 60000, (3 : ℚ)/25, 12, 6, 0⟩], [], 48600, 0, 0, 0, 0, 0, 60000, -5700⟩

def S3st7 : RunState :=
  ⟨[], [], [⟨"loan", 50000, (3 : ℚ)/25, 12, 5, 0⟩], [], 37400, 0, 0, 0, 0, 0, 50000, -6300⟩

def S3st8 : RunState :=
  ⟨[], [], [⟨"loan", 40000, (3 : ℚ)/25, 12, 4, 0⟩], [], 26400, 0, 0, 0, 0, 0, 40000, -6800⟩

def S3st9 : RunState :=
  ⟨[], [], [⟨"loan", 30000, (3 : ℚ)/25, 12, 3, 0⟩], [], 15600, 0, 0, 0, 0, 0, 30000, -7200⟩

def S3st10 : RunState :=
  ⟨[], [], [⟨"loan", 20000, (3 : ℚ)/25, 12, 2, 0⟩], [], 5000, 0, 0, 0, 0, 0, 20000, -7500⟩

def S3st11 : RunState :=
  ⟨[], [], [⟨"loan", 10000, (3 : ℚ)/25, 12, 1, 0⟩], [], 0, 0, 0, 0, 0, 0, 10000, -2300⟩

/-! ### Association-list and iteration lemmas -/

theorem lookupA_updateA_self {α β : Type} [DecidableEq α] (k : α) (v : β) (l : List (α × β)) :
    lookupA k (updateA k v l) = some v := by
  induction l with
  | nil => simp [updateA, lookupA]
  | cons hd tl ih =>
    obtain ⟨k', v'⟩ := hd
    by_cases h : k' = k
    · simp [updateA, h, lookupA]
    · simp [updateA, h, lookupA, ih]

theorem lookupA_updateA_ne {α β : Type} [DecidableEq α] {k k' : α} (v : β) (l : List (α × β))
    (h : k' ≠ k) : lookupA k (updateA k' v l) = lookupA k l := by
  induction l with
  | nil => simp [updateA, lookupA, h]
  | cons hd tl ih =>
    obtain ⟨k1, v1⟩ := hd
    by_cases h1 : k1 = k'
    · subst h1
      simp [updateA, lookupA, h]
    · by_cases h2 : k1 = k
      · subst h2
        simp [updateA, h1, lookupA]
      · simp [updateA, h1, lookupA, h2, ih]

theorem stepsFrom_length (s : ScenarioInput) :
    ∀ (n k : ℕ) (st : RunState), ((stepsFrom s k n st).2).length = n := by
  intro n
  induction n with
  | zero => intro k st; rfl
  | succ n ih => intro k st; simp [stepsFrom, ih]

theorem stepsFrom_mem (s : ScenarioInput) :
    ∀ (n k : ℕ) (st : RunState) (o : MonthLocals), o ∈ (stepsFrom s k n st).2 →
      ∃ (j : ℕ) (st' : RunState), o = (monthStep s j st').2 := by
  intro n
  induction n with
  | zero => intro k st o ho; exact absurd ho (by simp [stepsFrom])
  | succ n ih =>
    intro k st o ho
    simp only [stepsFrom, List.mem_cons] at ho
    rcases ho with h | h
    · exact ⟨k, st, h⟩
    · exact ih (k + 1) (monthStep s k st).1 o h

theorem stepsFrom_add (s : ScenarioInput) :
    ∀ (a b k : ℕ) (st : RunState),
      stepsFrom s k (a + b) st =
        ((stepsFrom s (k + a) b (stepsFrom s k a st).1).1,
         (stepsFrom s k a st).2 ++ (stepsFrom s (k + a) b (stepsFrom s k a st).1).2) := by
  intro a
  induction a with
  | zero =>
    intro b k st
    simp [stepsFrom]
  | succ a ih =>
    intro b k st
    have h1 : a + 1 + b = (a + b) + 1 := by omega
    have hidx : k + (a + 1) = (k + 1) + a := by omega
    rw [h1, hidx]
    simp only [stepsFrom]
    rw [ih b (k + 1) (monthStep s k st).1]
    simp

theorem stepsFrom_zero (s : ScenarioInput) (k : ℕ) (st : RunState) :
    stepsFrom s k 0 st = (st, []) := rfl

theorem stepsFrom_succ (s : ScenarioInput) (k n : ℕ) (st : RunState) :
    stepsFrom s k (n + 1) st =
      ((stepsFrom s (k + 1) n (monthStep s k st).1).1,
       (monthStep s k st).2 :: (stepsFrom s (k + 1) n (monthStep s k st).1).2) := rfl

theorem stepsFrom_one (s : ScenarioInput) (k : ℕ) (st : RunState) :
    stepsFrom s k 1 st = ((monthStep s k st).1, [(monthStep s k st).2]) := rfl

theorem stepsFrom_congr (s s' : ScenarioInput) (h : monthStep s = monthStep s') :
    ∀ (n k : ℕ) (st : RunState), stepsFrom s k n st = stepsFrom s' k n st := by
  intro n
  induction n with
  | zero => intro k st; rfl
  | succ n ih =>
    intro k st
    rw [stepsFrom_succ, stepsFrom_succ, h, ih]

theorem getD_zero_mem {α : Type} (l : List α) (d : α) (h : l ≠ []) : l.getD 0 d ∈ l := by
  cases l with
  | nil => exact absurd rfl h
  | cons a t => simp [List.getD]

/-! ### Per-month facts about the backstop -/

theorem monthStep_min_cash (s : ScenarioInput) (k : ℕ) (st : RunState) :
    s.working_capital.min_cash_balance ≤ (monthStep s k st).2.projection.cash_flow.ending_cash ∧
    s.working_capital.min_cash_balance ≤ (monthStep s k st).2.projection.balance_sheet.cash := by
  constructor <;>
    · dsimp only [monthStep]
      split_ifs with h <;> linarith

/-- C4: for every scenario and every month of a completed run, the
`ending_cash` of the cash-flow statement and the `cash` on the balance sheet
are at least `working_capital.min_cash_balance` — the min-cash backstop tops
the cash up to the floor whenever the month's net change would take it
below. -/
theorem ending_cash_ge_min_cash (root : ℚ) (s : ScenarioInput) (res : ScenarioResult)
    (hrun : run root s = Except.ok res) (p : MonthlyProjection) (hp : p ∈ res.monthly) :
    s.working_capital.min_cash_balance ≤ p.cash_flow.ending_cash ∧
    s.working_capital.min_cash_balance ≤ p.balance_sheet.cash := by
  have hmon : res.monthly = runMonthly s := by
    unfold run at hrun
    split at hrun
    · exact absurd hrun (by simp)
    · cases hrun
      rfl
  rw [hmon] at hp
  unfold runMonthly at hp
  obtain ⟨o, ho, rfl⟩ := List.mem_map.mp hp
  unfold monthLocals at ho
  obtain ⟨j, st', rfl⟩ := stepsFrom_mem s _ _ _ o ho
  exact monthStep_min_cash s j st'

/-- C4 witness: the invariant instantiated on the concrete backstopped
two-month scenario `C8sc`. -/
theorem ending_cash_ge_min_cash_witness :
    C8sc.working_capital.min_cash_balance ≤ (C8res.monthly.getD 0 mpDefault).cash_flow.ending_cash ∧
    C8sc.working_capital.min_cash_balance ≤ (C8res.monthly.getD 0 mpDefault).balance_sheet.cash :=
  ending_cash_ge_min_cash 1 C8sc C8res (by with_unfolding_all rfl)
    (C8res.monthly.getD 0 mpDefault)
    (getD_zero_mem C8res.monthly mpDefault (by with_unfolding_all decide))

/-- C8: in every month, the stored `net_change_in_cash` is the sum of the
operating and investing flows with the pre-backstop financing flow; the
backstop then adds its (nonnegative) shortfall to the cash, the stored
financing flow and the equity but not to the stored `net_change_in_cash`, so
the three stored flows sum to `net_change_in_cash` plus the shortfall. -/
theorem backstop_frame_effect (s : ScenarioInput) (o : MonthLocals) (ho : o ∈ monthLocals s) :
    o.projection.cash_flow.net_change_in_cash =
      o.projection.cash_flow.operating_cash_flow + o.projection.cash_flow.investing_cash_flow
        + o.financing_pre ∧
    o.projection.cash_flow.financing_cash_flow = o.financing_pre + o.shortfall ∧
    0 ≤ o.shortfall ∧
    o.projection.cash_flow.ending_cash =
      o.cash_start + o.projection.cash_flow.net_change_in_cash + o.shortfall ∧
    o.projection.balance_sheet.equity =
      o.equity_start + o.shortfall + o.projection.income_statement.net_income + o.equity_raise ∧
    o.projection.cash_flow.operating_cash_flow + o.projection.cash_flow.investing_cash_flow
        + o.projection.cash_flow.financing_cash_flow =
      o.projection.cash_flow.net_change_in_cash + o.shortfall := by
  unfold monthLocals at ho
  obtain ⟨j, st', rfl⟩ := stepsFrom_mem s _ _ _ o ho
  refine ⟨?_, ?_, ?_, ?_, ?_, ?_⟩
  · rfl
  · rfl
  · dsimp only [monthStep]
    split_ifs with h <;> linarith
  · rfl
  · rfl
  · dsimp only [monthStep]
    ring

/-- C8 witness: the frame identities instantiated on month 0 of the concrete
backstopped scenario `C8sc` (where the shortfall is 51000). -/
theorem backstop_frame_effect_witness :
    ((monthLocals C8sc).getD 0 mlDefault).projection.cash_flow.net_change_in_cash =
      ((monthLocals C8sc).getD 0 mlDefault).projection.cash_flow.operating_cash_flow
        + ((monthLocals C8sc).getD 0 mlDefault).projection.cash_flow.investing_cash_flow
        + ((monthLocals C8sc).getD 0 mlDefault).financing_pre ∧
    ((monthLocals C8sc).getD 0 mlDefault).projection.cash_flow.financing_cash_flow =
      ((monthLocals C8sc).getD 0 mlDefault).financing_pre
        + ((monthLocals C8sc).getD 0 mlDefault).shortfall ∧
    0 ≤ ((monthLocals C8sc).getD 0 mlDefault).shortfall ∧
    ((monthLocals C8sc).getD 0 mlDefault).projection.cash_flow.ending_cash =
      ((monthLocals C8sc).getD 0 mlDefault).cash_start
        + ((monthLocals C8sc).getD 0 mlDefault).projection.cash_flow.net_change_in_cash
        + ((monthLocals C8sc).getD 0 mlDefault).shortfall ∧
    ((monthLocals C8sc).getD 0 mlDefault).projection.balance_sheet.equity =
      ((monthLocals C8sc).getD 0 mlDefault).equity_start
        + ((monthLocals C8sc).getD 0 mlDefault).shortfall
        + ((monthLocals C8sc).getD 0 mlDefault).projection.income_statement.net_income
        + ((monthLocals C8sc).getD 0 mlDefault).equity_raise ∧
    ((monthLocals C8sc).getD 0 mlDefault).projection.cash_flow.operating_cash_flow
        + ((monthLocals C8sc).getD 0 mlDefault).projection.cash_flow.investing_cash_flow
        + ((monthLocals C8sc).getD 0 mlDefault).projection.cash_flow.financing_cash_flow =
      ((monthLocals C8sc).getD 0 mlDefault).projection.cash_flow.net_change_in_cash
        + ((monthLocals C8sc).getD 0 mlDefault).shortfall :=
  backstop_frame_effect C8sc ((monthLocals C8sc).getD 0 mlDefault)
    (getD_zero_mem (monthLocals C8sc) mlDefault (by with_unfolding_all decide))

/-- C9: at the start of `run`, a zero `company_state.equity` falls back (via
Python `or`) to `cash + max(0, fixed_assets - accumulated_depreciation)`;
any nonzero equity is carried unchanged. -/
theorem initial_equity_fallback (s : ScenarioInput) :
    (initState s).equity =
      if s.company_state.equity = 0 then
        s.company_state.cash
          + max 0 (s.company_state.fixed_assets - s.company_state.accumulated_depreciation)
      else s.company_state.equity := rfl

/-- C2: under the vendored pydantic stub, constructing a timeframe with
`months = 0` succeeds (no validation error), and the zero-month scenario
reaches `run`, which fails with `IndexError` at `monthly_results[-1]` instead
of a synchronous validation error at construction. -/
theorem timeframe_months_unvalidated :
    mkTimeframeSettings d0 0 = Except.ok ⟨d0, 0⟩ ∧
    run 1 zeroMonthSc = Except.error "IndexError" :=
  ⟨rfl, rfl⟩

/-- C1: on the single-capex scenario `S5sc` (`amount = 36000`,
`useful_life_months = 12`, `salvage_value = 0` at month 0, no other
activity), the monthly depreciation reported by the income statements is NOT
3000 for each of the first 12 months: `_compute_depreciation` divides the
undiminished `amount` by the shrinking `remaining` term, so the schedule is
`36000/(12-m)` (already `36000/11 ≠ 3000` at month 1) and the accumulated
depreciation ends at `8602100/77` (36000 times the 12th harmonic number),
not at `36000` plus the initial accumulated depreciation (= 0 here). -/
theorem depreciation_code_divergence :
    (monthLocals S5sc).map (fun o => o.projection.income_statement.depreciation)
      = [3000, 36000 / 11, 3600, 4000, 4500, 36000 / 7, 6000, 7200, 9000, 12000, 18000, 36000, 0] ∧
    (36000 / 11 : ℚ) ≠ 3000 ∧
    (monthLocals S5sc).map (fun o => o.projection.balance_sheet.accumulated_depreciation)
      = [3000, 69000 / 11, 108600 / 11, 152600 / 11, 202100 / 11, 1810700 / 77, 2272700 / 77, 2827100 / 77, 3520100 / 77, 4444100 / 77, 5830100 / 77, 8602100 / 77, 8602100 / 77] ∧
    (8602100 / 77 : ℚ) ≠ 36000 := by
  have s1 : (monthStep S5sc (0) (initState S5sc)).1 = S5st1 := by
    with_unfolding_all rfl
  have s2 : (monthStep S5sc (0 + 1) S5st1).1 = S5st2 := by
    with_unfolding_all rfl
  have s3 : (monthStep S5sc (0 + 1 + 1) S5st2).1 = S5st3 := by
    with_unfolding_all rfl
  have s4 : (monthStep S5sc (0 + 1 + 1 + 1) S5st3).1 = S5st4 := by
    with_unfolding_all rfl
  have s5 : (monthStep S5sc (0 + 1 + 1 + 1 + 1) S5st4).1 = S5st5 := by
    with_unfolding_all rfl
  have s6 : (monthStep S5sc (0 + 1 + 1 + 1 + 1 + 1) S5st5).1 = S5st6 := by
    with_unfolding_all rfl
  have s7 : (monthStep S5sc (0 + 1 + 1 + 1 + 1 + 1 + 1) S5st6).1 = S5st7 := by
    with_unfolding_all rfl
  have s8 : (monthStep S5sc (0 + 1 + 1 + 1 + 1 + 1 + 1 + 1) S5st7).1 = S5st8 := by
    with_unfolding_all rfl
  have s9 : (monthStep S5sc (0 + 1 + 1 + 1 + 1 + 1 + 1 + 1 + 1) S5st8).1 = S5st9 := by
    with_unfolding_all rfl
  have s10 : (monthStep S5sc (0 + 1 + 1 + 1 + 1 + 1 + 1 + 1 + 1 + 1) S5st9).1 = S5st10 := by
    with_unfolding_all rfl
  have s11 : (monthStep S5sc (0 + 1 + 1 + 1 + 1 + 1 + 1 + 1 + 1 + 1 + 1) S5st10).1 = S5st11 := by
    with_unfolding_all rfl
  have s12 : (monthStep S5sc (0 + 1 + 1 + 1 + 1 + 1 + 1 + 1 + 1 + 1 + 1 + 1) S5st11).1 = S5st12 := by
    with_unfolding_all rfl
  have d0 : (monthStep S5sc (0) (initState S5sc)).2.projection.income_statement.depreciation = 3000 := by
    with_unfolding_all rfl
  have d1 : (monthStep S5sc (0 + 1) S5st1).2.projection.income_statement.depreciation = 36000 / 11 := by
    with_unfolding_all rfl
  have d2 : (monthStep S5sc (0 + 1 + 1) S5st2).2.projection.income_statement.depreciation = 3600 := by
    with_unfolding_all rfl
  have d3 : (monthStep S5sc (0 + 1 + 1 + 1) S5st3).2.projection.income_statement.depreciation = 4000 := by
    with_unfolding_all rfl
  have d4 : (monthStep S5sc (0 + 1 + 1 + 1 + 1) S5st4).2.projection.income_statement.depreciation = 4500 := by
    with_unfolding_all rfl
  have d5 : (monthStep S5sc (0 + 1 + 1 + 1 + 1 + 1) S5st5).2.projection.income_statement.depreciation = 36000 / 7 := by
    with_unfolding_all rfl
  have d6 : (monthStep S5sc (0 + 1 + 1 + 1 + 1 + 1 + 1) S5st6).2.projection.income_statement.depreciation = 6000 := by
    with_unfolding_all rfl
  have d7 : (monthStep S5sc (0 + 1 + 1 + 1 + 1 + 1 + 1 + 1) S5st7).2.projection.income_statement.depreciation = 7200 := by
    with_unfolding_all rfl
  have d8 : (monthStep S5sc (0 + 1 + 1 + 1 + 1 + 1 + 1 + 1 + 1) S5st8).2.projection.income_statement.depreciation = 9000 := by
    with_unfolding_all rfl
  have d9 : (monthStep S5sc (0 + 1 + 1 + 1 + 1 + 1 + 1 + 1 + 1 + 1) S5st9).2.projection.income_statement.depreciation = 12000 := by
    with_unfolding_all rfl
  have d10 : (monthStep S5sc (0 + 1 + 1 + 1 + 1 + 1 + 1 + 1 + 1 + 1 + 1) S5st10).2.projection.income_statement.depreciation = 18000 := by
    with_unfolding_all rfl
  have d11 : (monthStep S5sc (0 + 1 + 1 + 1 + 1 + 1 + 1 + 1 + 1 + 1 + 1 + 1) S5st11).2.projection.income_statement.depreciation = 36000 := by
    with_unfolding_all rfl
  have d12 : (monthStep S5sc (0 + 1 + 1 + 1 + 1 + 1 + 1 + 1 + 1 + 1 + 1 + 1 + 1) S5st12).2.projection.income_statement.depreciation = 0 := by
    with_unfolding_all rfl
  have a0 : (monthStep S5sc (0) (initState S5sc)).2.projection.balance_sheet.accumulated_depreciation = 3000 := by
    with_unfolding_all rfl
  have a1 : (monthStep S5sc (0 + 1) S5st1).2.projection.balance_sheet.accumulated_depreciation = 69000 / 11 := by
    with_unfolding_all rfl
  have a2 : (monthStep S5sc (0 + 1 + 1) S5st2).2.projection.balance_sheet.accumulated_depreciation = 108600 / 11 := by
    with_unfolding_all rfl
  have a3 : (monthStep S5sc (0 + 1 + 1 + 1) S5st3).2.projection.balance_sheet.accumulated_depreciation = 152600 / 11 := by
    with_unfolding_all rfl
  have a4 : (monthStep S5sc (0 + 1 + 1 + 1 + 1) S5st4).2.projection.balance_sheet.accumulated_depreciation = 202100 / 11 := by
    with_unfolding_all rfl
  have a5 : (monthStep S5sc (0 + 1 + 1 + 1 + 1 + 1) S5st5).2.projection.balance_sheet.accumulated_depreciation = 1810700 / 77 := by
    with_unfolding_all rfl
  have a6 : (monthStep S5sc (0 + 1 + 1 + 1 + 1 + 1 + 1) S5st6).2.projection.balance_sheet.accumulated_depreciation = 2272700 / 77 := by
    with_unfolding_all rfl
  have a7 : (monthStep S5sc (0 + 1 + 1 + 1 + 1 + 1 + 1 + 1) S5st7).2.projection.balance_sheet.accumulated_depreciation = 2827100 / 77 := by
    with_unfolding_all rfl
  have a8 : (monthStep S5sc (0 + 1 + 1 + 1 + 1 + 1 + 1 + 1 + 1) S5st8).2.projection.balance_sheet.accumulated_depreciation = 3520100 / 77 := by
    with_unfolding_all rfl
  have a9 : (monthStep S5sc (0 + 1 + 1 + 1 + 1 + 1 + 1 + 1 + 1 + 1) S5st9).2.projection.balance_sheet.accumulated_depreciation = 4444100 / 77 := by
    with_unfolding_all rfl
  have a10 : (monthStep S5sc (0 + 1 + 1 + 1 + 1 + 1 + 1 + 1 + 1 + 1 + 1) S5st10).2.projection.balance_sheet.accumulated_depreciation = 5830100 / 77 := by
    with_unfolding_all rfl
  have a11 : (monthStep S5sc (0 + 1 + 1 + 1 + 1 + 1 + 1 + 1 + 1 + 1 + 1 + 1) S5st11).2.projection.balance_sheet.accumulated_depreciation = 8602100 / 77 := by
    with_unfolding_all rfl
  have a12 : (monthStep S5sc (0 + 1 + 1 + 1 + 1 + 1 + 1 + 1 + 1 + 1 + 1 + 1 + 1) S5st12).2.projection.balance_sheet.accumulated_depreciation = 8602100 / 77 := by
    with_unfolding_all rfl
  have hml : monthLocals S5sc = (stepsFrom S5sc 0 13 (initState S5sc)).2 := by
    unfold monthLocals
    rw [show S5sc.timeframe.months.toNat = 13 from rfl]
  have hchain : (stepsFrom S5sc 0 13 (initState S5sc)).2
      = [(monthStep S5sc (0) (initState S5sc)).2,
       (monthStep S5sc (0 + 1) S5st1).2,
       (monthStep S5sc (0 + 1 + 1) S5st2).2,
       (monthStep S5sc (0 + 1 + 1 + 1) S5st3).2,
       (monthStep S5sc (0 + 1 + 1 + 1 + 1) S5st4).2,
       (monthStep S5sc (0 + 1 + 1 + 1 + 1 + 1) S5st5).2,
       (monthStep S5sc (0 + 1 + 1 + 1 + 1 + 1 + 1) S5st6).2,
       (monthStep S5sc (0 + 1 + 1 + 1 + 1 + 1 + 1 + 1) S5st7).2,
       (monthStep S5sc (0 + 1 + 1 + 1 + 1 + 1 + 1 + 1 + 1) S5st8).2,
       (monthStep S5sc (0 + 1 + 1 + 1 + 1 + 1 + 1 + 1 + 1 + 1) S5st9).2,
       (monthStep S5sc (0 + 1 + 1 + 1 + 1 + 1 + 1 + 1 + 1 + 1 + 1) S5st10).2,
       (monthStep S5sc (0 + 1 + 1 + 1 + 1 + 1 + 1 + 1 + 1 + 1 + 1 + 1) S5st11).2,
       (monthStep S5sc (0 + 1 + 1 + 1 + 1 + 1 + 1 + 1 + 1 + 1 + 1 + 1 + 1) S5st12).2] := by
    rw [show (13 : ℕ) = 12 + 1 from rfl, stepsFrom_succ, s1,
        show (12 : ℕ) = 11 + 1 from rfl, stepsFrom_succ, s2,
        show (11 : ℕ) = 10 + 1 from rfl, stepsFrom_succ, s3,
        show (10 : ℕ) = 9 + 1 from rfl, stepsFrom_succ, s4,
        show (9 : ℕ) = 8 + 1 from rfl, stepsFrom_succ, s5,
        show (8 : ℕ) = 7 + 1 from rfl, stepsFrom_succ, s6,
        show (7 : ℕ) = 6 + 1 from rfl, stepsFrom_succ, s7,
        show (6 : ℕ) = 5 + 1 from rfl, stepsFrom_succ, s8,
        show (5 : ℕ) = 4 + 1 from rfl, stepsFrom_succ, s9,
        show (4 : ℕ) = 3 + 1 from rfl, stepsFrom_succ, s10,
        show (3 : ℕ) = 2 + 1 from rfl, stepsFrom_succ, s11,
        show (2 : ℕ) = 1 + 1 from rfl, stepsFrom_succ, s12,
        stepsFrom_one]
  refine ⟨?_, by norm_num, ?_, by norm_num⟩
  · rw [hml, hchain]
    simp only [List.map_cons, List.map_nil]
    rw [d0, d1, d2, d3, d4, d5, d6, d7, d8, d9, d10, d11, d12]
  · rw [hml, hchain]
    simp only [List.map_cons, List.map_nil]
    rw [a0, a1, a2, a3, a4, a5, a6, a7, a8, a9, a10, a11, a12]

/-- C6: for the S3 debt scenario run over `12 + k` months (any `k`), the sum
of `principal_paid` over the first 12 months is exactly 120000, and the
balance-sheet `debt` over those months is `110000, 100000, …, 10000, 0` —
in particular exactly 0 in the 12th month. -/
theorem debt_amortization_sums (k : ℕ) :
    ((((monthLocals (S3sc (12 + (k : ℤ)))).map (fun o => o.principal_paid)).take 12).sum)
      = 120000 ∧
    (((monthLocals (S3sc (12 + (k : ℤ)))).map
        (fun o => o.projection.balance_sheet.debt)).take 12)
      = [110000, 100000, 90000, 80000, 70000, 60000, 50000, 40000, 30000, 20000, 10000, 0] := by
  have hcongM : monthStep (S3sc (12 + (k : ℤ))) = monthStep (S3sc 12) := rfl
  have hcongI : initState (S3sc (12 + (k : ℤ))) = initState (S3sc 12) := rfl
  have htn : (S3sc (12 + (k : ℤ))).timeframe.months.toNat = 12 + k := by
    show ((12 : ℤ) + (k : ℤ)).toNat = 12 + k
    omega
  have t1 : (monthStep (S3sc 12) (0) (initState (S3sc 12))).1 = S3st1 := by
    with_unfolding_all rfl
  have t2 : (monthStep (S3sc 12) (0 + 1) S3st1).1 = S3st2 := by
    with_unfolding_all rfl
  have t3 : (monthStep (S3sc 12) (0 + 1 + 1) S3st2).1 = S3st3 := by
    with_unfolding_all rfl
  have t4 : (monthStep (S3sc 12) (0 + 1 + 1 + 1) S3st3).1 = S3st4 := by
    with_unfolding_all rfl
  have t5 : (monthStep (S3sc 12) (0 + 1 + 1 + 1 + 1) S3st4).1 = S3st5 := by
    with_unfolding_all rfl
  have t6 : (monthStep (S3sc 12) (0 + 1 + 1 + 1 + 1 + 1) S3st5).1 = S3st6 := by
    with_unfolding_all rfl
  have t7 : (monthStep (S3sc 12) (0 + 1 + 1 + 1 + 1 + 1 + 1) S3st6).1 = S3st7 := by
    with_unfolding_all rfl
  have t8 : (monthStep (S3sc 12) (0 + 1 + 1 + 1 + 1 + 1 + 1 + 1) S3st7).1 = S3st8 := by
    with_unfolding_all rfl
  have t9 : (monthStep (S3sc 12) (0 + 1 + 1 + 1 + 1 + 1 + 1 + 1 + 1) S3st8).1 = S3st9 := by
    with_unfolding_all rfl
  have t10 : (monthStep (S3sc 12) (0 + 1 + 1 + 1 + 1 + 1 + 1 + 1 + 1 + 1) S3st9).1 = S3st10 := by
    with_unfolding_all rfl
  have t11 : (monthStep (S3sc 12) (0 + 1 + 1 + 1 + 1 + 1 + 1 + 1 + 1 + 1 + 1) S3st10).1 = S3st11 := by
    with_unfolding_all rfl
  have p0 : (monthStep (S3sc 12) (0) (initState (S3sc 12))).2.principal_paid = 10000 := by
    with_unfolding_all rfl
  have p1 : (monthStep (S3sc 12) (0 + 1) S3st1).2.principal_paid = 10000 := by
    with_unfolding_all rfl
  have p2 : (monthStep (S3sc 12) (0 + 1 + 1) S3st2).2.principal_paid = 10000 := by
    with_unfolding_all rfl
  have p3 : (monthStep (S3sc 12) (0 + 1 + 1 + 1) S3st3).2.principal_paid = 10000 := by
    with_unfolding_all rfl
  have p4 : (monthStep (S3sc 12) (0 + 1 + 1 + 1 + 1) S3st4).2.principal_paid = 10000 := by
    with_unfolding_all rfl
  have p5 : (monthStep (S3sc 12) (0 + 1 + 1 + 1 + 1 + 1) S3st5).2.principal_paid = 10000 := by
    with_unfolding_all rfl
  have p6 : (monthStep (S3sc 12) (0 + 1 + 1 + 1 + 1 + 1 + 1) S3st6).2.principal_paid = 10000 := by
    with_unfolding_all rfl
  have p7 : (monthStep (S3sc 12) (0 + 1 + 1 + 1 + 1 + 1 + 1 + 1) S3st7).2.principal_paid = 10000 := by
    with_unfolding_all rfl
  have p8 : (monthStep (S3sc 12) (0 + 1 + 1 + 1 + 1 + 1 + 1 + 1 + 1) S3st8).2.principal_paid = 10000 := by
    with_unfolding_all rfl
  have p9 : (monthStep (S3sc 12) (0 + 1 + 1 + 1 + 1 + 1 + 1 + 1 + 1 + 1) S3st9).2.principal_paid = 10000 := by
    with_unfolding_all rfl
  have p10 : (monthStep (S3sc 12) (0 + 1 + 1 + 1 + 1 + 1 + 1 + 1 + 1 + 1 + 1) S3st10).2.principal_paid = 10000 := by
    with_unfolding_all rfl
  have p11 : (monthStep (S3sc 12) (0 + 1 + 1 + 1 + 1 + 1 + 1 + 1 + 1 + 1 + 1 + 1) S3st11).2.principal_paid = 10000 := by
    with_unfolding_all rfl
  have b0 : (monthStep (S3sc 12) (0) (initState (S3sc 12))).2.projection.balance_sheet.debt = 110000 := by
    with_unfolding_all rfl
  have b1 : (monthStep (S3sc 12) (0 + 1) S3st1).2.projection.balance_sheet.debt = 100000 := by
    with_unfolding_all rfl
  have b2 : (monthStep (S3sc 12) (0 + 1 + 1) S3st2).2.projection.balance_sheet.debt = 90000 := by
    with_unfolding_all rfl
  have b3 : (monthStep (S3sc 12) (0 + 1 + 1 + 1) S3st3).2.projection.balance_sheet.debt = 80000 := by
    with_unfolding_all rfl
  have b4 : (monthStep (S3sc 12) (0 + 1 + 1 + 1 + 1) S3st4).2.projection.balance_sheet.debt = 70000 := by
    with_unfolding_all rfl
  have b5 : (monthStep (S3sc 12) (0 + 1 + 1 + 1 + 1 + 1) S3st5).2.projection.balance_sheet.debt = 60000 := by
    with_unfolding_all rfl
  have b6 : (monthStep (S3sc 12) (0 + 1 + 1 + 1 + 1 + 1 + 1) S3st6).2.projection.balance_sheet.debt = 50000 := by
    with_unfolding_all rfl
  have b7 : (monthStep (S3sc 12) (0 + 1 + 1 + 1 + 1 + 1 + 1 + 1) S3st7).2.projection.balance_sheet.debt = 40000 := by
    with_unfolding_all rfl
  have b8 : (monthStep (S3sc 12) (0 + 1 + 1 + 1 + 1 + 1 + 1 + 1 + 1) S3st8).2.projection.balance_sheet.debt = 30000 := by
    with_unfolding_all rfl
  have b9 : (monthStep (S3sc 12) (0 + 1 + 1 + 1 + 1 + 1 + 1 + 1 + 1 + 1) S3st9).2.projection.balance_sheet.debt = 20000 := by
    with_unfolding_all rfl
  have b10 : (monthStep (S3sc 12) (0 + 1 + 1 + 1 + 1 + 1 + 1 + 1 + 1 + 1 + 1) S3st10).2.projection.balance_sheet.debt = 10000 := by
    with_unfolding_all rfl
  have b11 : (monthStep (S3sc 12) (0 + 1 + 1 + 1 + 1 + 1 + 1 + 1 + 1 + 1 + 1 + 1) S3st11).2.projection.balance_sheet.debt = 0 := by
    with_unfolding_all rfl
  have hchain : (stepsFrom (S3sc 12) 0 12 (initState (S3sc 12))).2
      = [(monthStep (S3sc 12) (0) (initState (S3sc 12))).2,
       (monthStep (S3sc 12) (0 + 1) S3st1).2,
       (monthStep (S3sc 12) (0 + 1 + 1) S3st2).2,
       (monthStep (S3sc 12) (0 + 1 + 1 + 1) S3st3).2,
       (monthStep (S3sc 12) (0 + 1 + 1 + 1 + 1) S3st4).2,
       (monthStep (S3sc 12) (0 + 1 + 1 + 1 + 1 + 1) S3st5).2,
       (monthStep (S3sc 12) (0 + 1 + 1 + 1 + 1 + 1 + 1) S3st6).2,
       (monthStep (S3sc 12) (0 + 1 + 1 + 1 + 1 + 1 + 1 + 1) S3st7).2,
       (monthStep (S3sc 12) (0 + 1 + 1 + 1 + 1 + 1 + 1 + 1 + 1) S3st8).2,
       (monthStep (S3sc 12) (0 + 1 + 1 + 1 + 1 + 1 + 1 + 1 + 1 + 1) S3st9).2,
       (monthStep (S3sc 12) (0 + 1 + 1 + 1 + 1 + 1 + 1 + 1 + 1 + 1 + 1) S3st10).2,
       (monthStep (S3sc 12) (0 + 1 + 1 + 1 + 1 + 1 + 1 + 1 + 1 + 1 + 1 + 1) S3st11).2] := by
    rw [show (12 : ℕ) = 11 + 1 from rfl, stepsFrom_succ, t1,
        show (11 : ℕ) = 10 + 1 from rfl, stepsFrom_succ, t2,
        show (10 : ℕ) = 9 + 1 from rfl, stepsFrom_succ, t3,
        show (9 : ℕ) = 8 + 1 from rfl, stepsFrom_succ, t4,
        show (8 : ℕ) = 7 + 1 from rfl, stepsFrom_succ, t5,
        show (7 : ℕ) = 6 + 1 from rfl, stepsFrom_succ, t6,
        show (6 : ℕ) = 5 + 1 from rfl, stepsFrom_succ, t7,
        show (5 : ℕ) = 4 + 1 from rfl, stepsFrom_succ, t8,
        show (4 : ℕ) = 3 + 1 from rfl, stepsFrom_succ, t9,
        show (3 : ℕ) = 2 + 1 from rfl, stepsFrom_succ, t10,
        show (2 : ℕ) = 1 + 1 from rfl, stepsFrom_succ, t11,
        stepsFrom_one]
  have hml : monthLocals (S3sc (12 + (k : ℤ)))
      = (stepsFrom (S3sc 12) 0 12 (initState (S3sc 12))).2
        ++ (stepsFrom (S3sc 12) (0 + 12) k (stepsFrom (S3sc 12) 0 12 (initState (S3sc 12))).1).2 := by
    show (stepsFrom (S3sc (12 + (k : ℤ))) 0
        (S3sc (12 + (k : ℤ))).timeframe.months.toNat (initState (S3sc (12 + (k : ℤ))))).2 = _
    rw [htn, stepsFrom_congr _ _ hcongM, hcongI, stepsFrom_add]
  constructor
  · rw [hml, hchain, List.map_append]
    simp only [List.map_cons, List.map_nil]
    rw [p0, p1, p2, p3, p4, p5, p6, p7, p8, p9, p10, p11]
    rw [show (12 : ℕ) = ([10000, 10000, 10000, 10000, 10000, 10000, 10000, 10000, 10000,
          10000, 10000, 10000] : List ℚ).length from rfl, List.take_left]
    norm_num [List.sum_cons, List.sum_nil]
  · rw [hml, hchain, List.map_append]
    simp only [List.map_cons, List.map_nil]
    rw [b0, b1, b2, b3, b4, b5, b6, b7, b8, b9, b10, b11]
    rw [show (12 : ℕ) = ([110000, 100000, 90000, 80000, 70000, 60000, 50000, 40000,
          30000, 20000, 10000, 0] : List ℚ).length from rfl, List.take_left]

/-! ### C3: ownership_required clamping -/

/-- C3 counterexample: on the concrete scenario `C3sc` (negative last-year net
revenue, positive exit multiple, positive equity investment) the run completes
— its wacc is `(101/100)^12 - 1`, so the monthly discount base is exactly
`101/100`, `wacc ≠ perpetual_growth_rate`, and no denominator on the path is
zero — and the produced `vc_method.ownership_required` is `-1/2`:
`min(1.0, ·)` clamps only from above, so the claim that it always lies in
`[0, 1]` is false. -/
theorem ownership_required_negative_cex : ownershipOf (run (101 / 100) C3sc) < 0 := by
  have h : ownershipOf (run (101 / 100) C3sc) = -(1 / 2) := by with_unfolding_all rfl
  rw [h]
  norm_num

/-- C3 amended: whenever `_compute_vc_method` returns a result, its
`ownership_required` is at most 1, and it lies in `[0, 1]` whenever the
summed equity investment is nonnegative, the discounted exit value is
nonnegative, and `probability_of_success` is positive; the code clamps only
from above via `min(1.0, ·)`. -/
theorem ownership_required_clamped_amended (vs : ValuationSettings) (fm : FundingModel)
    (annual : List AnnualSummary) (vc : VCValuationResult)
    (hvc : computeVCMethod vs fm annual = .ok vc)
    (hinv : 0 ≤ ((fm.equity_rounds.map (fun r => r.amount)).sum))
    (hde : 0 ≤ vcDiscountedExit vs annual)
    (hp : 0 < vs.probability_of_success) :
    0 ≤ vc.ownership_required ∧ vc.ownership_required ≤ 1 := by
  cases hl : annual.getLast? with
  | none =>
    unfold computeVCMethod at hvc
    rw [hl] at hvc
    injection hvc with h
    rw [← h]
    norm_num
  | some last =>
    unfold vcDiscountedExit at hde
    rw [hl] at hde
    unfold computeVCMethod at hvc
    rw [hl] at hvc
    dsimp only at hvc
    split at hvc
    · exact Except.noConfusion hvc
    · split at hvc
      · exact Except.noConfusion hvc
      · injection hvc with h
        rw [← h]
        dsimp only
        constructor
        · refine le_min (by norm_num) ?_
          split_ifs with hz
          · exact div_nonneg hinv (le_of_lt (mul_pos (lt_of_le_of_ne hde (Ne.symm hz)) hp))
          · exact le_refl 0
        · exact min_le_left _ _

/-- C3 amended, witnessed at a concrete input (zero investment, zero
discounted exit, unit probability; the VC method completes with the all-zero
result). -/
theorem ownership_required_clamped_amended_witness :
    computeVCMethod C3sc.valuation {} [annDefault] = .ok ⟨0, 0, 0, 0⟩ ∧
    0 ≤ (⟨0, 0, 0, 0⟩ : VCValuationResult).ownership_required ∧
    (⟨0, 0, 0, 0⟩ : VCValuationResult).ownership_required ≤ 1 :=
  ⟨by with_unfolding_all rfl,
   ownership_required_clamped_amended C3sc.valuation {} [annDefault] ⟨0, 0, 0, 0⟩
     (by with_unfolding_all rfl) (by with_unfolding_all decide)
     (by with_unfolding_all decide) (by with_unfolding_all decide)⟩

/-! ### C5: deferral queue machinery -/

theorem revFoldStep_fst (m : ℕ) (acc : List (String × PlanState) × RevenueSummary)
    (plan : RevenuePlan) : (revFoldStep m acc plan).1 = planFold m acc.1 plan := rfl

theorem foldl_revFoldStep_fst (m : ℕ) :
    ∀ (plans : List RevenuePlan) (acc : List (String × PlanState) × RevenueSummary),
      (plans.foldl (revFoldStep m) acc).1 = plans.foldl (planFold m) acc.1 := by
  intro plans
  induction plans with
  | nil => intro acc; rfl
  | cons q rest ih =>
    intro acc
    show (rest.foldl (revFoldStep m) (revFoldStep m acc q)).1 = _
    rw [ih, revFoldStep_fst]
    rfl

theorem computeRevenue_fst (m : ℕ) (rm : RevenueModel) (states : List (String × PlanState)) :
    (computeRevenue m rm states).1 = rm.plans.foldl (planFold m) states := by
  unfold computeRevenue
  dsimp only
  rw [foldl_revFoldStep_fst]

theorem foldl_planFold_lookup_of_not_mem (m : ℕ) (name : String) :
    ∀ (plans : List RevenuePlan) (states : List (String × PlanState)),
      name ∉ plans.map RevenuePlan.name →
      lookupA name (plans.foldl (planFold m) states) = lookupA name states := by
  intro plans
  induction plans with
  | nil => intro states _; rfl
  | cons q rest ih =>
    intro states h
    simp only [List.map_cons, List.mem_cons, not_or] at h
    show lookupA name (rest.foldl (planFold m) (planFold m states q)) = _
    rw [ih _ h.2]
    unfold planFold
    exact lookupA_updateA_ne _ _ (fun he => h.1 he.symm)

theorem foldl_planFold_lookup (m : ℕ) :
    ∀ (plans : List RevenuePlan) (states : List (String × PlanState)) (p : RevenuePlan),
      (plans.map RevenuePlan.name).Nodup → p ∈ plans →
      lookupA p.name (plans.foldl (planFold m) states)
        = some (planStep m p ((lookupA p.name states).getD ⟨0, []⟩)).1 := by
  intro plans
  induction plans with
  | nil => intro states p _ hp; exact absurd hp (by simp)
  | cons q rest ih =>
    intro states p hnd hp
    simp only [List.map_cons, List.nodup_cons] at hnd
    rcases List.mem_cons.mp hp with rfl | hp'
    · show lookupA p.name (rest.foldl (planFold m) (planFold m states p)) = _
      rw [foldl_planFold_lookup_of_not_mem m p.name rest _ hnd.1]
      unfold planFold
      exact lookupA_updateA_self _ _ _
    · have hne : p.name ≠ q.name := by
        intro he
        exact hnd.1 (he ▸ List.mem_map_of_mem RevenuePlan.name hp')
      show lookupA p.name (rest.foldl (planFold m) (planFold m states q)) = _
      rw [ih _ p hnd.2 hp']
      have hpres : lookupA p.name (planFold m states q) = lookupA p.name states := by
        unfold planFold
        exact lookupA_updateA_ne _ _ (Ne.symm hne)
      rw [hpres]

theorem foldl_initPlanFold_not_mem (name : String) :
    ∀ (plans : List RevenuePlan) (acc : List (String × PlanState)),
      name ∉ plans.map RevenuePlan.name →
      lookupA name (plans.foldl initPlanFold acc) = lookupA name acc := by
  intro plans
  induction plans with
  | nil => intro acc _; rfl
  | cons q rest ih =>
    intro acc h
    simp only [List.map_cons, List.mem_cons, not_or] at h
    show lookupA name (rest.foldl initPlanFold (initPlanFold acc q)) = _
    rw [ih _ h.2]
    unfold initPlanFold
    exact lookupA_updateA_ne _ _ (fun he => h.1 he.symm)

theorem foldl_initPlanFold_lookup :
    ∀ (plans : List RevenuePlan) (acc : List (String × PlanState)) (p : RevenuePlan),
      (plans.map RevenuePlan.name).Nodup → p ∈ plans →
      lookupA p.name (plans.foldl initPlanFold acc)
        = some ⟨p.initial_customers, List.replicate p.revenue_deferral_months.toNat 0⟩ := by
  intro plans
  induction plans with
  | nil => intro acc p _ hp; exact absurd hp (by simp)
  | cons q rest ih =>
    intro acc p hnd hp
    simp only [List.map_cons, List.nodup_cons] at hnd
    rcases List.mem_cons.mp hp with rfl | hp'
    · show lookupA p.name (rest.foldl initPlanFold (initPlanFold acc p)) = _
      rw [foldl_initPlanFold_not_mem p.name rest _ hnd.1]
      unfold initPlanFold
      exact lookupA_updateA_self _ _ _
    · exact ih _ p hnd.2 hp'

theorem initPlanStates_lookup (plans : List RevenuePlan) (p : RevenuePlan)
    (hnd : (plans.map RevenuePlan.name).Nodup) (hp : p ∈ plans) :
    lookupA p.name (initPlanStates plans)
      = some ⟨p.initial_customers, List.replicate p.revenue_deferral_months.toNat 0⟩ :=
  foldl_initPlanFold_lookup plans [] p hnd hp

theorem replicate_queue_tail (c : ℕ) (tl : List ℚ) (g : ℚ) :
    ((List.replicate (c + 1) 0 ++ tl) ++ [g]).tail = List.replicate c 0 ++ (tl ++ [g]) := by
  rw [List.replicate_succ]
  simp [List.append_assoc]

theorem stepsFrom_succ_back (s : ScenarioInput) (m : ℕ) (st : RunState) :
    (stepsFrom s 0 (m + 1) st).1 = (monthStep s m (stepsFrom s 0 m st).1).1 := by
  rw [stepsFrom_add s m 1 0 st, stepsFrom_one]
  simp

/-- The deferral-queue invariant: after `m ≤ k` months, the first `k - m`
entries of a `k`-deferral plan's queue are still the initial zeros. -/
theorem deferral_queue_invariant (s : ScenarioInput) (p : RevenuePlan)
    (hp : p ∈ s.revenue.plans) (hnd : (s.revenue.plans.map RevenuePlan.name).Nodup) :
    ∀ m : ℕ, m ≤ p.revenue_deferral_months.toNat →
      ∃ (a : ℚ) (tl : List ℚ),
        lookupA p.name (stepsFrom s 0 m (initState s)).1.planStates
          = some ⟨a, List.replicate (p.revenue_deferral_months.toNat - m) 0 ++ tl⟩ := by
  intro m
  induction m with
  | zero =>
    intro _
    refine ⟨p.initial_customers, [], ?_⟩
    show lookupA p.name (initState s).planStates = _
    rw [List.append_nil, Nat.sub_zero]
    exact initPlanStates_lookup s.revenue.plans p hnd hp
  | succ m ih =>
    intro hm
    obtain ⟨a, tl, hlk⟩ := ih (Nat.le_of_succ_le hm)
    rw [stepsFrom_succ_back]
    have hms : (monthStep s m (stepsFrom s 0 m (initState s)).1).1.planStates
        = (computeRevenue m s.revenue (stepsFrom s 0 m (initState s)).1.planStates).1 := rfl
    rw [hms, computeRevenue_fst, foldl_planFold_lookup m s.revenue.plans _ p hnd hp, hlk]
    have hk : 0 < p.revenue_deferral_months := by omega
    have hc : p.revenue_deferral_months.toNat - m
        = (p.revenue_deferral_months.toNat - (m + 1)) + 1 := by omega
    unfold planStep
    rw [if_pos hk]
    dsimp only [Option.getD_some]
    rw [hc, replicate_queue_tail]
    exact ⟨_, _, rfl⟩

/-- C5: for every plan with a positive deferral `k` (plan names distinct, as
for a set of plans), in each month `m < k` the plan's `recognized` revenue as
computed by `_compute_revenue` from the run's plan states is 0 — the head
popped from the deferral queue is still an initial zero — so the plan's
contribution `recognized - discount` to `total_net` is exactly minus its
discount. -/
theorem deferral_recognized_zero (s : ScenarioInput) (p : RevenuePlan)
    (hp : p ∈ s.revenue.plans) (hnd : (s.revenue.plans.map RevenuePlan.name).Nodup)
    (hk : 0 < p.revenue_deferral_months) (m : ℕ)
    (hm : (m : ℤ) < p.revenue_deferral_months) :
    (planStep m p ((lookupA p.name
        (stepsFrom s 0 m (initState s)).1.planStates).getD ⟨0, []⟩)).2.recognized = 0 ∧
    (planStep m p ((lookupA p.name
        (stepsFrom s 0 m (initState s)).1.planStates).getD ⟨0, []⟩)).2.recognized
      - (planStep m p ((lookupA p.name
          (stepsFrom s 0 m (initState s)).1.planStates).getD ⟨0, []⟩)).2.discount
      = -(planStep m p ((lookupA p.name
          (stepsFrom s 0 m (initState s)).1.planStates).getD ⟨0, []⟩)).2.discount := by
  have hmle : m ≤ p.revenue_deferral_months.toNat := by omega
  obtain ⟨a, tl, hlk⟩ := deferral_queue_invariant s p hp hnd m hmle
  have hc : p.revenue_deferral_months.toNat - m
      = (p.revenue_deferral_months.toNat - (m + 1)) + 1 := by omega
  have hrec : (planStep m p ⟨a,
      List.replicate (p.revenue_deferral_months.toNat - m) 0 ++ tl⟩).2.recognized = 0 := by
    unfold planStep
    rw [if_pos hk]
    dsimp only
    rw [hc, List.replicate_succ]
    simp
  rw [hlk, Option.getD_some]
  exact ⟨hrec, by rw [hrec, zero_sub]⟩

/-- C5 witness: the deferral fact instantiated at month 1 of the concrete
three-month-deferral scenario `C5sc`. -/
theorem deferral_recognized_zero_witness :
    (planStep 1 C5plan ((lookupA C5plan.name
        (stepsFrom C5sc 0 1 (initState C5sc)).1.planStates).getD ⟨0, []⟩)).2.recognized = 0 ∧
    (planStep 1 C5plan ((lookupA C5plan.name
        (stepsFrom C5sc 0 1 (initState C5sc)).1.planStates).getD ⟨0, []⟩)).2.recognized
      - (planStep 1 C5plan ((lookupA C5plan.name
          (stepsFrom C5sc 0 1 (initState C5sc)).1.planStates).getD ⟨0, []⟩)).2.discount
      = -(planStep 1 C5plan ((lookupA C5plan.name
          (stepsFrom C5sc 0 1 (initState C5sc)).1.planStates).getD ⟨0, []⟩)).2.discount :=
  deferral_recognized_zero C5sc C5plan (by with_unfolding_all decide)
    (by with_unfolding_all decide) (by with_unfolding_all decide) 1
    (by with_unfolding_all decide)

/-! ### C7: enterprise value and the perpetual growth rate -/

theorem monthStep_setG (s : ScenarioInput) (g : ℚ) : monthStep (setG s g) = monthStep s := rfl

theorem monthLocals_setG (s : ScenarioInput) (g : ℚ) :
    monthLocals (setG s g) = monthLocals s := by
  unfold monthLocals
  rw [stepsFrom_congr _ _ (monthStep_setG s g)]
  rfl

theorem runMonthly_setG (s : ScenarioInput) (g : ℚ) :
    runMonthly (setG s g) = runMonthly s := by
  unfold runMonthly
  rw [monthLocals_setG]

theorem annualOf_setG (s : ScenarioInput) (g : ℚ) :
    annualOf (setG s g) = annualOf s := by
  unfold annualOf
  rw [runMonthly_setG]

theorem computeTerminalValue_perpetuity (vs : ValuationSettings) (annual : List AnnualSummary)
    (last : AnnualSummary) (hl : annual.getLast? = some last)
    (hm : vs.terminal_method = TerminalValueMethod.PERPETUITY)
    (hne : vs.wacc - vs.perpetual_growth_rate ≠ 0) :
    computeTerminalValue vs annual
      = Except.ok ((last.cash_flow.fcff / 12) * (1 + vs.perpetual_growth_rate)
          / (vs.wacc - vs.perpetual_growth_rate)) := by
  unfold computeTerminalValue
  rw [hl, hm]
  dsimp only
  rw [if_neg hne]

theorem run_ok_ev (root : ℚ) (s : ScenarioInput) (res : ScenarioResult)
    (h : run root s = Except.ok res) :
    ∃ tv, computeTerminalValue s.valuation (annualOf s) = Except.ok tv ∧
      res.valuation.dcf.enterprise_value
        = pvCashFlows root (runMonthly s) + tv / root ^ (runMonthly s).length := by
  unfold run at h
  split at h
  · exact absurd h (by simp)
  · rename_i v heq
    cases h
    unfold buildValuation at heq
    dsimp only at heq
    split at heq
    · exact absurd heq (by simp)
    · split at heq
      · exact absurd heq (by simp)
      · rename_i tv htv
        split at heq
        · exact absurd heq (by simp)
        · rename_i lastMonth hlast
          split at heq
          · exact absurd heq (by simp)
          · rename_i vc hvc
            split at heq
            · exact absurd heq (by simp)
            · rename_i sc hsc
              cases heq
              refine ⟨tv, htv, ?_⟩
              dsimp only
              simp only [pvCashFlows, List.length_map]

/-- C7: two runs of the same scenario that differ only in
`perpetual_growth_rate` (0 versus 0.05), with `wacc = 0.15`, the perpetuity
terminal method and a positive terminal-year FCFF: the higher growth rate
yields a strictly greater `dcf.enterprise_value`. -/
theorem enterprise_value_monotone_growth (root : ℚ) (s : ScenarioInput)
    (r0 r5 : ScenarioResult) (last : AnnualSummary)
    (hroot : 0 < root)
    (hw : s.valuation.wacc = 3 / 20)
    (hm : s.valuation.terminal_method = TerminalValueMethod.PERPETUITY)
    (hlast : (annualOf s).getLast? = some last)
    (hf : 0 < last.cash_flow.fcff)
    (h0 : run root (setG s 0) = Except.ok r0)
    (h5 : run root (setG s (1 / 20)) = Except.ok r5) :
    r0.valuation.dcf.enterprise_value < r5.valuation.dcf.enterprise_value := by
  obtain ⟨tv0, htv0, hev0⟩ := run_ok_ev root _ r0 h0
  obtain ⟨tv5, htv5, hev5⟩ := run_ok_ev root _ r5 h5
  rw [hev0, hev5, runMonthly_setG, runMonthly_setG]
  rw [annualOf_setG] at htv0
  rw [annualOf_setG] at htv5
  have hl0 : (setG s 0).valuation.terminal_method = TerminalValueMethod.PERPETUITY := hm
  have hl5 : (setG s (1 / 20)).valuation.terminal_method = TerminalValueMethod.PERPETUITY := hm
  have hw0 : (setG s 0).valuation.wacc = 3 / 20 := hw
  have hw5 : (setG s (1 / 20)).valuation.wacc = 3 / 20 := hw
  have hne0 : (setG s 0).valuation.wacc - (setG s 0).valuation.perpetual_growth_rate ≠ 0 := by
    rw [hw0, show (setG s 0).valuation.perpetual_growth_rate = (0 : ℚ) from rfl]
    norm_num
  have hne5 : (setG s (1 / 20)).valuation.wacc
      - (setG s (1 / 20)).valuation.perpetual_growth_rate ≠ 0 := by
    rw [hw5, show (setG s (1 / 20)).valuation.perpetual_growth_rate = (1 / 20 : ℚ) from rfl]
    norm_num
  rw [computeTerminalValue_perpetuity _ _ last hlast hl0 hne0] at htv0
  rw [computeTerminalValue_perpetuity _ _ last hlast hl5 hne5] at htv5
  injection htv0 with htv0e
  injection htv5 with htv5e
  rw [← htv0e, ← htv5e]
  rw [show (setG s 0).valuation.perpetual_growth_rate = (0 : ℚ) from rfl,
      show (setG s (1 / 20)).valuation.perpetual_growth_rate = (1 / 20 : ℚ) from rfl,
      hw0, hw5]
  have hNpos : (0 : ℚ) < root ^ (runMonthly s).length := pow_pos hroot _
  have hF : 0 < last.cash_flow.fcff / 12 := by positivity
  have htv : last.cash_flow.fcff / 12 * (1 + 0) / (3 / 20 - 0)
      < last.cash_flow.fcff / 12 * (1 + 1 / 20) / (3 / 20 - 1 / 20) := by
    rw [div_lt_div_iff₀ (by norm_num) (by norm_num)]
    nlinarith [hF]
  exact add_lt_add_left ((div_lt_div_iff_of_pos_right hNpos).mpr htv) _

/-- C7 witness: the comparison instantiated on the concrete one-month
positive-FCFF scenario `C7sc` (enterprise values 5600/3 < 2250). -/
theorem enterprise_value_monotone_growth_witness :
    C7r0.valuation.dcf.enterprise_value < C7r5.valuation.dcf.enterprise_value :=
  enterprise_value_monotone_growth 1 C7sc C7r0 C7r5
    ((annualOf C7sc).getLast?.getD annDefault)
    one_pos rfl rfl
    (by with_unfolding_all rfl)
    (by
      have h : ((annualOf C7sc).getLast?.getD annDefault).cash_flow.fcff = 1200 := by
        with_unfolding_all rfl
      rw [h]
      norm_num)
    (by with_unfolding_all rfl)
    (by with_unfolding_all rfl)

/-! ### C10: scorecard normalisation -/

theorem list_sum_map_div (l : List ℚ) (t : ℚ) :
    (l.map (fun x => x / t)).sum = l.sum / t := by
  induction l with
  | nil => simp
  | cons a tl ih => simp [ih, add_div]

theorem monthLocals_length (s : ScenarioInput) :
    (monthLocals s).length = s.timeframe.months.toNat := by
  unfold monthLocals
  rw [stepsFrom_length]

theorem runMonthly_length (s : ScenarioInput) :
    (runMonthly s).length = s.timeframe.months.toNat := by
  unfold runMonthly
  rw [List.length_map, monthLocals_length]

theorem computeScorecard_raises (vs : ValuationSettings)
    (hne : vs.scorecard_weights ≠ [])
    (hz : ((vs.scorecard_weights.map (fun kv => kv.2)).sum) = 0) :
    ∀ be : ℚ, computeScorecard vs be = Except.error "ZeroDivisionError" := by
  intro be
  unfold computeScorecard
  rw [if_neg hne]
  dsimp only
  rw [if_pos hz]

theorem computeScorecard_ok (vs : ValuationSettings)
    (h : vs.scorecard_weights = [] ∨ ((vs.scorecard_weights.map (fun kv => kv.2)).sum) ≠ 0) :
    (vs.scorecard_weights = [] → ∀ be : ℚ, computeScorecard vs be = Except.ok none) ∧
    (vs.scorecard_weights ≠ [] → ∃ score : ℚ, score = 1 ∧ ∀ be : ℚ,
      computeScorecard vs be = Except.ok (some ⟨score, be * score⟩)) := by
  constructor
  · intro he be
    unfold computeScorecard
    rw [if_pos he]
  · intro hne
    have ht : ((vs.scorecard_weights.map (fun kv => kv.2)).sum) ≠ 0 := by
      rcases h with h | h
      · exact absurd h hne
      · exact h
    refine ⟨((vs.scorecard_weights.map (fun kv =>
        (kv.1, kv.2 / (vs.scorecard_weights.map (fun kv => kv.2)).sum))).map
          (fun kv => kv.2)).sum, ?_, ?_⟩
    · rw [List.map_map]
      have hcomp : ((fun kv : String × ℚ => kv.2) ∘ (fun kv : String × ℚ =>
          (kv.1, kv.2 / (vs.scorecard_weights.map (fun kv => kv.2)).sum)))
          = fun kv : String × ℚ => kv.2 / (vs.scorecard_weights.map (fun kv => kv.2)).sum := rfl
      rw [hcomp, show (fun kv : String × ℚ =>
          kv.2 / (vs.scorecard_weights.map (fun kv => kv.2)).sum)
          = (fun x : ℚ => x / (vs.scorecard_weights.map (fun kv => kv.2)).sum)
            ∘ (fun kv : String × ℚ => kv.2) from rfl,
        ← List.map_map, list_sum_map_div]
      exact div_self ht
    · intro be
      unfold computeScorecard
      rw [if_neg hne]
      dsimp only
      rw [if_neg ht]

theorem computeTerminalValue_ok (vs : ValuationSettings) (annual : List AnnualSummary)
    (htv : vs.terminal_method = TerminalValueMethod.PERPETUITY →
      vs.wacc - vs.perpetual_growth_rate ≠ 0) :
    ∃ tv, computeTerminalValue vs annual = Except.ok tv := by
  cases hv : computeTerminalValue vs annual with
  | ok tv => exact ⟨tv, rfl⟩
  | error e =>
    exfalso
    unfold computeTerminalValue at hv
    cases hl : annual.getLast? with
    | none =>
      rw [hl] at hv
      exact Except.noConfusion hv
    | some last =>
      rw [hl] at hv
      cases hm : vs.terminal_method with
      | PERPETUITY =>
        rw [hm] at hv
        dsimp only at hv
        split at hv
        · rename_i hzero
          exact htv hm hzero
        · exact Except.noConfusion hv
      | MULTIPLE =>
        rw [hm] at hv
        exact Except.noConfusion hv

theorem computeVCMethod_ok (vs : ValuationSettings) (fm : FundingModel)
    (annual : List AnnualSummary)
    (hd : (1 + vs.discount_rate_vc) ^ vs.target_exit_year ≠ 0)
    (hp : vs.probability_of_success ≠ 0) :
    ∃ vc, computeVCMethod vs fm annual = Except.ok vc := by
  cases hv : computeVCMethod vs fm annual with
  | ok vc => exact ⟨vc, rfl⟩
  | error e =>
    exfalso
    unfold computeVCMethod at hv
    cases hl : annual.getLast? with
    | none =>
      rw [hl] at hv
      exact Except.noConfusion hv
    | some last =>
      rw [hl] at hv
      dsimp only at hv
      split at hv
      · rename_i hzero
        exact hd hzero
      · split at hv
        · rename_i hcond
          rcases mul_eq_zero.mp hcond.2 with h | h
          · exact hcond.1 h
          · exact hp h
        · exact Except.noConfusion hv

/-- C10 counterexample: the claim says `run` completes for every scenario
whose scorecard weights are empty; on `emptyScenario` (one month, empty
weights) the defaults `wacc = perpetual_growth_rate = 0` under the default
perpetuity terminal method make `_compute_terminal_value` divide by zero, so
`run` raises `ZeroDivisionError` before ever reaching the scorecard and
returns no `ScenarioResult`. -/
theorem scorecard_completion_cex :
    run 1 emptyScenario = Except.error "ZeroDivisionError" := by
  with_unfolding_all rfl

/-- C10 amended: for a scenario whose run reaches the scorecard — at least
one month; every supplier contract has a nonzero
`escalation_frequency_months` and every plan's seasonal pattern has its 12
entries (the monthly loop's two raise points, which the loop's embedding
totalises, so they are excluded here by hypothesis); a nonzero monthly
discount base `root`; `wacc ≠ perpetual_growth_rate` under the perpetuity
terminal method; a nonzero `(1 + discount_rate_vc) ^ target_exit_year` and a
nonzero `probability_of_success` — non-empty scorecard weights summing to
exactly zero make `run` fail with the normalisation's `ZeroDivisionError`,
while empty weights or a nonzero sum let `run` complete, with
`total_score = 1` when the weights are non-empty. Without those conditions
`run` can fail before the scorecard: `emptyScenario` (empty weights) raises
`ZeroDivisionError` in the terminal value, and a zero-month scenario raises
`IndexError`. -/
theorem scorecard_zero_weight_division_amended (root : ℚ) (s : ScenarioInput)
    (hmonths : 1 ≤ s.timeframe.months)
    (_hesc : ∀ c ∈ s.costs.supplier_contracts, c.escalation_frequency_months ≠ 0)
    (_hseas : ∀ p ∈ s.revenue.plans, p.seasonal_pattern.values.length = 12)
    (hroot : root ≠ 0)
    (htv : s.valuation.terminal_method = TerminalValueMethod.PERPETUITY →
      s.valuation.wacc - s.valuation.perpetual_growth_rate ≠ 0)
    (hvcd : (1 + s.valuation.discount_rate_vc) ^ s.valuation.target_exit_year ≠ 0)
    (hvcp : s.valuation.probability_of_success ≠ 0) :
    (s.valuation.scorecard_weights ≠ [] ∧
        ((s.valuation.scorecard_weights.map (fun kv => kv.2)).sum) = 0 →
      run root s = Except.error "ZeroDivisionError") ∧
    (s.valuation.scorecard_weights = [] ∨
        ((s.valuation.scorecard_weights.map (fun kv => kv.2)).sum) ≠ 0 →
      ∃ res, run root s = Except.ok res ∧
        (s.valuation.scorecard_weights ≠ [] →
          ∃ sc, res.valuation.scorecard = some sc ∧ sc.total_score = 1)) := by
  obtain ⟨lastMonth, hlastM⟩ : ∃ lm, (runMonthly s).getLast? = some lm := by
    have hlen := runMonthly_length s
    have hne : runMonthly s ≠ [] := by
      intro h
      rw [h] at hlen
      simp at hlen
      omega
    exact ⟨_, List.getLast?_eq_getLast_of_ne_nil hne⟩
  obtain ⟨tv, htvok⟩ := computeTerminalValue_ok s.valuation (annualOf s) htv
  obtain ⟨vc, hvcok⟩ := computeVCMethod_ok s.valuation s.funding (annualOf s) hvcd hvcp
  have hgate : ¬((runMonthly s).map (fun mo => mo.cash_flow.fcff) ≠ [] ∧ root = 0) :=
    fun hc => hroot hc.2
  constructor
  · rintro ⟨hw1, hw2⟩
    have hBV : buildValuation root (runMonthly s) (annualOf s) s
        = Except.error "ZeroDivisionError" := by
      unfold buildValuation
      dsimp only
      rw [if_neg hgate, htvok]
      dsimp only
      rw [hlastM]
      dsimp only
      rw [hvcok]
      dsimp only
      rw [computeScorecard_raises s.valuation hw1 hw2]
    unfold run
    rw [hBV]
  · intro hok
    obtain ⟨hempty, hnonempty⟩ := computeScorecard_ok s.valuation hok
    by_cases hwe : s.valuation.scorecard_weights = []
    · have hBV : ∃ v, buildValuation root (runMonthly s) (annualOf s) s
          = Except.ok v := by
        unfold buildValuation
        dsimp only
        rw [if_neg hgate, htvok]
        dsimp only
        rw [hlastM]
        dsimp only
        rw [hvcok]
        dsimp only
        rw [hempty hwe]
        exact ⟨_, rfl⟩
      obtain ⟨v, hv⟩ := hBV
      refine ⟨⟨runMonthly s, annualOf s, v⟩, ?_, fun hne => absurd hwe hne⟩
      unfold run
      rw [hv]
    · obtain ⟨score, hs1, hsEq⟩ := hnonempty hwe
      have hBV : ∃ v, buildValuation root (runMonthly s) (annualOf s) s
          = Except.ok v ∧ ∃ sc, v.scorecard = some sc ∧ sc.total_score = score := by
        unfold buildValuation
        dsimp only
        rw [if_neg hgate, htvok]
        dsimp only
        rw [hlastM]
        dsimp only
        rw [hvcok]
        dsimp only
        rw [hsEq]
        exact ⟨_, rfl, _, rfl, rfl⟩
      obtain ⟨v, hv, sc, hsc, hscore⟩ := hBV
      refine ⟨⟨runMonthly s, annualOf s, v⟩, ?_, fun _ => ⟨sc, hsc, by rw [hscore, hs1]⟩⟩
      unfold run
      rw [hv]

/-- C10 amended, witnessed: the zero-sum scenario `C10err` errors in the
scorecard and the nonzero-sum scenario `C10ok` completes with
`total_score = 1` (both use the division-free `multiple` terminal method, so
every guard of the amended statement holds at them). -/
theorem scorecard_zero_weight_division_amended_witness :
    run 1 C10err = Except.error "ZeroDivisionError" ∧
    scorecardScoreOf (run 1 C10ok) = 1 := by
  constructor
  · exact (scorecard_zero_weight_division_amended 1 C10err
      (by with_unfolding_all decide) (by with_unfolding_all decide)
      (by with_unfolding_all decide) (by with_unfolding_all decide)
      (fun hm => absurd hm (by with_unfolding_all decide))
      (by with_unfolding_all decide) (by with_unfolding_all decide)).1
      ⟨by with_unfolding_all decide, by with_unfolding_all rfl⟩
  · obtain ⟨res, hres, hsc⟩ :=
      (scorecard_zero_weight_division_amended 1 C10ok
        (by with_unfolding_all decide) (by with_unfolding_all decide)
        (by with_unfolding_all decide) (by with_unfolding_all decide)
        (fun hm => absurd hm (by with_unfolding_all decide))
        (by with_unfolding_all decide) (by with_unfolding_all decide)).2
        (Or.inr (by with_unfolding_all decide))
    obtain ⟨sc, hsome, hone⟩ := hsc (by with_unfolding_all decide)
    unfold scorecardScoreOf
    rw [hres]
    dsimp only
    rw [hsome]
    exact hone

end ValuationApp
